import Mathlib

/-!
Google-Sheets connector: record validation, row projection and sheet append.

A shallow embedding of `internal/model/model.go`, `internal/services/google/sheets.go`,
`getSheetHeaders` of `internal/handler/httphandler/handler.go`,
`pkg/kafka-handler/kafka.go`, the callback of `internal/services/google/auth.go`
and the ingestion goroutine of `main.go`.

Conventions of the embedding
* a Go pointer `*T` is an `Option T` (`none` is the nil pointer);
* a Go `error` is an `Option GoError` (`none` is the nil error), an error being
  identified by its message;
* a Go string is a Lean `String`; `sort.Strings` orders strings by their bytes,
  which for UTF-8 text is the order of the code points; `strings.ToUpper` reads
  the case table of the `unicode` package, which is a parameter;
* a method of the Sheets client returns, next to its Go result, the requests it
  sent to the remote service and the entries it logged; the answers of the
  remote service are a parameter; writes to standard output are left out;
* the Kafka client library with the cluster behind it is a state machine given
  as a parameter; a method of the handler returns how it ends (a value or a
  panic), the cluster state it leaves and its calls into the library.
-/

namespace SheetsConnector

/-! ## Library types -/

/-- A Go error value, identified by its message. -/
abbrev GoError := String

/-- Go `time.Time`, reduced to what this program observes of it: the instant
(`sec` seconds and `nsec` nanoseconds since January 1, year 1, 00:00:00 UTC), on
which `IsZero` depends, and the outcome of `MarshalJSON`, which is the quoted
RFC 3339 text of the time, or a failure (`none`) when the year of the time lies
outside `[0,9999]`. -/
structure Time where
  sec : Int
  nsec : Nat
  rfc3339 : Option String
deriving DecidableEq, Repr

/-- Go `Time.IsZero`: the time is the zero instant. -/
def Time.IsZero (t : Time) : Bool := t.sec == 0 && t.nsec == 0

/-- The error `Time.MarshalJSON` returns for a year outside `[0,9999]`, as
wrapped by `json.Marshal`. -/
def marshalTimeError : GoError :=
  "json: error calling MarshalJSON for type time.Time: Time.MarshalJSON: year outside of range [0,9999]"

/-! ## `internal/model/model.go` -/

/-- The struct `QuestionnarieData`, fields in declaration order. `Options` is a
slice of string pointers; `none` is the nil slice. -/
structure QuestionnarieData where
  FormID : Option String
  QuestionID : Option String
  RuleID : Option String
  QuestionTitle : Option String
  QuestionRule : Option String
  IsRequired : Option Bool
  OptionID : Option String
  Options : Option (List (Option String))
  QuestionCreationDate : Time
  Answer : Option String
  SelectedAnswerOptions : Option String
  AnsweredOn : Time
  RespondentID : Option String
  RespondentEmail : Option String
  RespondentPhoneNumber : Option String
  OrgID : Option String
  AnswerID : Option String
  FormStartDate : Time
  FormEndDate : Time
  CreatedAt : Time
  UpdatedAt : Time
deriving DecidableEq, Repr

/-- The method `(*QuestionnarieData).Validate`: the checks in source order, each
returning its own `errors.New` value; `none` is the nil error. -/
def Validate (q : QuestionnarieData) : Option GoError :=
  if q.FormID.isNone then some "form ID cannot be empty"
  else if q.QuestionID.isNone then some "question ID cannot be empty"
  else if q.QuestionTitle.isNone then some "question title cannot be empty"
  else if q.AnswerID.isNone then some "answer cannot be empty"
  else if q.Answer.isNone && q.SelectedAnswerOptions.isNone then
    some "answer(s) cannot be empty"
  else if q.RespondentID.isNone then some "respondent id cannot be empty"
  else if q.RespondentEmail.isNone then some "respondent email cannot be empty"
  else if q.OrgID.isNone then some "organization id cannot be empty"
  else if q.FormStartDate.IsZero then some "form start date not specified"
  else if q.CreatedAt.IsZero then some "form created at date not specified"
  else none

/-! ## The validation rules, one by one -/

/-- The ten checks of `Validate`: nine required fields and the rule that at
least one of `Answer` and `SelectedAnswerOptions` is present. -/
inductive Rule where
  | FormID | QuestionID | QuestionTitle | AnswerID | RespondentID
  | RespondentEmail | OrgID | FormStartDate | CreatedAt | answers
deriving DecidableEq, Repr

/-- The condition under which `Validate` takes the branch of a rule: the field
is the nil pointer, or the zero time; for `answers`, both answer fields are nil. -/
def Rule.violated (q : QuestionnarieData) : Rule → Bool
  | .FormID => q.FormID.isNone
  | .QuestionID => q.QuestionID.isNone
  | .QuestionTitle => q.QuestionTitle.isNone
  | .AnswerID => q.AnswerID.isNone
  | .RespondentID => q.RespondentID.isNone
  | .RespondentEmail => q.RespondentEmail.isNone
  | .OrgID => q.OrgID.isNone
  | .FormStartDate => q.FormStartDate.IsZero
  | .CreatedAt => q.CreatedAt.IsZero
  | .answers => q.Answer.isNone && q.SelectedAnswerOptions.isNone

/-- The message of the error that the branch of a rule returns in `Validate`. -/
def Rule.error : Rule → GoError
  | .FormID => "form ID cannot be empty"
  | .QuestionID => "question ID cannot be empty"
  | .QuestionTitle => "question title cannot be empty"
  | .AnswerID => "answer cannot be empty"
  | .RespondentID => "respondent id cannot be empty"
  | .RespondentEmail => "respondent email cannot be empty"
  | .OrgID => "organization id cannot be empty"
  | .FormStartDate => "form start date not specified"
  | .CreatedAt => "form created at date not specified"
  | .answers => "answer(s) cannot be empty"

/-- The order in which the source of `Validate` performs its checks. -/
def sourceRuleOrder : List Rule :=
  [.FormID, .QuestionID, .QuestionTitle, .AnswerID, .answers, .RespondentID,
   .RespondentEmail, .OrgID, .FormStartDate, .CreatedAt]

/-- The order in which the specification lists the rules: the nine required
fields, then the at-least-one-answer rule. -/
def specRuleOrder : List Rule :=
  [.FormID, .QuestionID, .QuestionTitle, .AnswerID, .RespondentID,
   .RespondentEmail, .OrgID, .FormStartDate, .CreatedAt, .answers]

/-- The error of the first violated rule of an ordered rule list, `none` when
no rule of the list is violated. -/
def firstViolation (order : List Rule) (q : QuestionnarieData) : Option GoError :=
  (order.find? (fun r => r.violated q)).map Rule.error

/-- A time that is not the zero instant: 2024-01-01T00:00:00Z. -/
def sampleStart : Time :=
  { sec := 63839664000, nsec := 0, rfc3339 := some "2024-01-01T00:00:00Z" }

/-- A time that is not the zero instant: 2024-01-01T00:05:00Z. -/
def sampleCreated : Time :=
  { sec := 63839664300, nsec := 0, rfc3339 := some "2024-01-01T00:05:00Z" }

/-- The zero value of `time.Time`, which marshals as year 1. -/
def zeroTime : Time :=
  { sec := 0, nsec := 0, rfc3339 := some "0001-01-01T00:00:00Z" }

/-- The record of the end-to-end scenario of the specification: every required
field and `answer` are present, all other fields are absent. -/
def sampleRecord : QuestionnarieData :=
  { FormID := some "F1", QuestionID := some "Q1", RuleID := none,
    QuestionTitle := some "Color?", QuestionRule := none, IsRequired := none,
    OptionID := none, Options := none, QuestionCreationDate := zeroTime,
    Answer := some "Blue", SelectedAnswerOptions := none, AnsweredOn := zeroTime,
    RespondentID := some "R1", RespondentEmail := some "r@x.com",
    RespondentPhoneNumber := none, OrgID := some "O1", AnswerID := some "A1",
    FormStartDate := sampleStart, FormEndDate := zeroTime,
    CreatedAt := sampleCreated, UpdatedAt := zeroTime }

/-! ## Strings: `sort.Strings` and `strings.ToUpper` -/

/-- The code points of a string; Go compares strings byte by byte, which for
UTF-8 text is the comparison of the code point sequences. -/
def bytesOf (s : String) : List Nat := s.data.map Char.toNat

/-- Go string comparison `a <= b`. -/
def StrLe (a b : String) : Prop := bytesOf a ≤ bytesOf b

instance instDecidableStrLe : DecidableRel StrLe :=
  fun a b => inferInstanceAs (Decidable (bytesOf a ≤ bytesOf b))

instance instIsTotalStrLe : IsTotal String StrLe :=
  ⟨fun a b => le_total (bytesOf a) (bytesOf b)⟩

instance instIsTransStrLe : IsTrans String StrLe :=
  ⟨fun a _ _ hab hbc => le_trans (show bytesOf a ≤ _ from hab) hbc⟩

instance instIsAntisymmStrLe : IsAntisymm String StrLe :=
  ⟨fun _ _ hab hba =>
    String.ext
      (List.map_injective_iff.mpr (fun _ _ hxy => Char.ext (UInt32.ext hxy))
        (le_antisymm hab hba))⟩

/-- Go `sort.Strings`: the slice rearranged into ascending order. -/
def sortStrings (l : List String) : List String := l.insertionSort StrLe

/-- Go `unicode.ToUpper` on one character: an ASCII letter `a` to `z` is moved
to `A` to `Z` and every other ASCII character is kept; outside ASCII the
result is read from the case table of the `unicode` package, which is the
parameter `caseTable`. -/
def upperChar (caseTable : Char → Char) (c : Char) : Char :=
  if c.toNat < 128 then
    if 97 ≤ c.toNat ∧ c.toNat ≤ 122 then Char.ofNat (c.toNat - 32) else c
  else caseTable c

/-- Go `strings.ToUpper`: `unicode.ToUpper` applied to every character of the
string (the byte-wise path that Go takes for ASCII-only strings gives the same
result). -/
def ToUpper (caseTable : Char → Char) (s : String) : String :=
  String.mk (s.data.map (upperChar caseTable))

/-- A list of strings is in ascending order: no element is greater than its
successor. -/
def isAscending : List String → Bool
  | [] => true
  | [_] => true
  | a :: b :: l => decide (StrLe a b) && isAscending (b :: l)

/-! ## JSON values and the wire form of the record -/

/-- A value that `json.Unmarshal` stores in a `map[string]interface{}` for this
record: nil, a bool, a string, or a slice whose items are strings or nil. -/
inductive JVal where
  | null
  | bool (b : Bool)
  | str (s : String)
  | arr (items : List (Option String))
deriving DecidableEq, Repr

/-- JSON form of a `*string` field. -/
def encPtrString : Option String → JVal
  | none => .null
  | some s => .str s

/-- JSON form of a `*bool` field. -/
def encPtrBool : Option Bool → JVal
  | none => .null
  | some b => .bool b

/-- JSON form of a `[]*string` field; the nil slice is `null`. -/
def encStringPtrs : Option (List (Option String)) → JVal
  | none => .null
  | some l => .arr l

/-- JSON form of a `time.Time` field, which `Time.MarshalJSON` may refuse. -/
def encTime (t : Time) : Except GoError JVal :=
  match t.rfc3339 with
  | some s => .ok (.str s)
  | none => .error marshalTimeError

/-- One field of the struct as reflection and `encoding/json` see it: its Go
name, the key of its `json` tag, and the JSON form of its value. -/
structure StructField where
  Name : String
  jsonKey : String
  encode : QuestionnarieData → Except GoError JVal

/-- The fields of `QuestionnarieData` in declaration order (no tag has
`omitempty`, so every key is always written). -/
def questionnaireFields : List StructField :=
  [ ⟨"FormID", "form_id", fun q => .ok (encPtrString q.FormID)⟩,
    ⟨"QuestionID", "question_id", fun q => .ok (encPtrString q.QuestionID)⟩,
    ⟨"RuleID", "rule_id", fun q => .ok (encPtrString q.RuleID)⟩,
    ⟨"QuestionTitle", "question_title", fun q => .ok (encPtrString q.QuestionTitle)⟩,
    ⟨"QuestionRule", "question_rule", fun q => .ok (encPtrString q.QuestionRule)⟩,
    ⟨"IsRequired", "is_required", fun q => .ok (encPtrBool q.IsRequired)⟩,
    ⟨"OptionID", "option_id", fun q => .ok (encPtrString q.OptionID)⟩,
    ⟨"Options", "options", fun q => .ok (encStringPtrs q.Options)⟩,
    ⟨"QuestionCreationDate", "question_creation_date", fun q => encTime q.QuestionCreationDate⟩,
    ⟨"Answer", "answer", fun q => .ok (encPtrString q.Answer)⟩,
    ⟨"SelectedAnswerOptions", "selected_answer_option",
      fun q => .ok (encPtrString q.SelectedAnswerOptions)⟩,
    ⟨"AnsweredOn", "answered_on", fun q => encTime q.AnsweredOn⟩,
    ⟨"RespondentID", "respondent_id", fun q => .ok (encPtrString q.RespondentID)⟩,
    ⟨"RespondentEmail", "respondent_email", fun q => .ok (encPtrString q.RespondentEmail)⟩,
    ⟨"RespondentPhoneNumber", "respondent_phone_number",
      fun q => .ok (encPtrString q.RespondentPhoneNumber)⟩,
    ⟨"OrgID", "org_id", fun q => .ok (encPtrString q.OrgID)⟩,
    ⟨"AnswerID", "answer_id", fun q => .ok (encPtrString q.AnswerID)⟩,
    ⟨"FormStartDate", "form_start_date", fun q => encTime q.FormStartDate⟩,
    ⟨"FormEndDate", "form_end_date", fun q => encTime q.FormEndDate⟩,
    ⟨"CreatedAt", "created_at", fun q => encTime q.CreatedAt⟩,
    ⟨"UpdatedAt", "updated_at", fun q => encTime q.UpdatedAt⟩ ]

/-- The members of the JSON object for a list of fields, in field order; the
first field that fails to encode aborts the encoding with its error. -/
def marshalFields (q : QuestionnarieData) :
    List StructField → Except GoError (List (String × JVal))
  | [] => .ok []
  | f :: fs =>
    match f.encode q with
    | .error e => .error e
    | .ok v =>
      match marshalFields q fs with
      | .error e => .error e
      | .ok rest => .ok ((f.jsonKey, v) :: rest)

/-- Go `json.Marshal(data)` for a `*QuestionnarieData`; the document is kept as
the member list of its top-level object. -/
def jsonMarshal (q : QuestionnarieData) : Except GoError (List (String × JVal)) :=
  marshalFields q questionnaireFields

/-- Whether `json.Marshal(data)` returns a nil error. -/
def marshals (q : QuestionnarieData) : Bool :=
  match jsonMarshal q with
  | .ok _ => true
  | .error _ => false

/-- A Go `map[string]interface{}`: entries with pairwise distinct keys. -/
abbrev GoMap := List (String × JVal)

/-- Go `m[k] = v`. -/
def GoMap.set (m : GoMap) (k : String) (v : JVal) : GoMap :=
  if m.any (fun e => e.1 == k) then m.map (fun e => if e.1 == k then (k, v) else e)
  else m ++ [(k, v)]

/-- Go `m[k]`: the stored value, nil for a missing key. -/
def GoMap.get (m : GoMap) (k : String) : JVal :=
  match m.lookup k with
  | some v => v
  | none => .null

/-- The key set of a map, in storage order (which `range` does not follow). -/
def GoMap.keys (m : GoMap) : List String := m.map Prod.fst

/-- Go `json.Unmarshal(bytes, &m)` into an empty map: every member of the
object is stored under its key; a document produced by `json.Marshal` always
decodes. -/
def jsonUnmarshal (members : List (String × JVal)) : Except GoError GoMap :=
  .ok (members.foldl (fun m e => m.set e.1 e.2) [])

/-- The order in which a `for key := range m` loop visits the keys of a map:
some rearrangement of the key set, not fixed by the language. -/
structure MapIter where
  order : List String → List String
  perm : ∀ keys : List String, (order keys).Perm keys

/-- The iteration that visits the keys in storage order. -/
def MapIter.forward : MapIter := ⟨fun keys => keys, fun keys => List.Perm.refl keys⟩

/-- The iteration that visits the keys in reverse storage order. -/
def MapIter.backward : MapIter :=
  ⟨fun keys => keys.reverse, fun keys => List.reverse_perm keys⟩

/-! ## `internal/handler/httphandler/handler.go` -/

/-- The function `getSheetHeaders`: `t.Field(i).Name` for every field of the
struct type, in declaration order. -/
def getSheetHeaders : List String := questionnaireFields.map StructField.Name

/-- The struct field whose Go name equals `header` up to letter case. -/
def fieldNamed (caseTable : Char → Char) (header : String) : Option StructField :=
  questionnaireFields.find?
    (fun f => ToUpper caseTable f.Name == ToUpper caseTable header)

/-- The struct field whose `json` tag names the key `key`. -/
def fieldOfKey (key : String) : Option StructField :=
  questionnaireFields.find? (fun f => f.jsonKey == key)

/-! ## The remote Sheets service -/

/-- Sheets API `ValueRange`: rows of cell values. -/
structure ValueRange where
  Values : List (List JVal)
deriving DecidableEq, Repr

/-- A `Spreadsheets.Values.Append` request with its options. -/
structure AppendCall where
  spreadsheetId : String
  range : String
  values : ValueRange
  valueInputOption : String
  insertDataOption : String
deriving DecidableEq, Repr

/-- Sheets API `GridRange`. -/
structure GridRange where
  SheetId : Int
  StartRowIndex : Int
  EndRowIndex : Int
  StartColumnIndex : Int
  EndColumnIndex : Int
deriving DecidableEq, Repr

/-- Sheets API `CellFormat`, the parts this program sets. -/
structure CellFormat where
  VerticalAlignment : String
  HorizontalAlignment : String
  Bold : Bool
deriving DecidableEq, Repr

/-- The entries of a `BatchUpdateSpreadsheetRequest` that `AppendColumnHeaders`
builds. -/
inductive Request where
  | RepeatCell (range : GridRange) (format : CellFormat) (fields : String)
  | UpdateSheetProperties (sheetId : Int) (frozenRowCount : Int) (fields : String)
deriving DecidableEq, Repr

/-- One request sent to the remote service. -/
inductive Call where
  | valuesAppend (c : AppendCall)
  | batchUpdate (spreadsheetId : String) (requests : List Request)
  | valuesGet (spreadsheetId : String) (range : String)
deriving DecidableEq, Repr

/-- The remote service as the client sees it: the outcome of `Do()` for each
request (`none` is success for the two writes). -/
structure SheetsService where
  valuesAppend : AppendCall → Option GoError
  batchUpdate : String → List Request → Option GoError
  valuesGet : String → String → Except GoError ValueRange

/-- What a call of a client method does: the value it returns, the requests it
sent, in order, and the `logger.Error` entries it wrote. -/
structure Run (α : Type) where
  result : α
  calls : List Call
  logs : List (String × GoError)

/-- The rows carried by the append requests of a run, in order. -/
def Run.rows {α : Type} (r : Run α) : List (List JVal) :=
  r.calls.flatMap fun c =>
    match c with
    | .valuesAppend a => a.values.Values
    | _ => []

/-- How a Go function ends: it returns a value, or panics. -/
inductive GoResult (α : Type) where
  | ret (a : α)
  | panic (msg : String)
deriving DecidableEq, Repr

/-! ## `internal/services/google/sheets.go` -/

/-- Constant `VALUE_INPUT_OPTION`. -/
def VALUE_INPUT_OPTION : String := "RAW"

/-- Constant `INSERT_DATA_OPTION`. -/
def INSERT_DATA_OPTION : String := "INSERT_ROWS"

/-- The method `appendRowData`: one `Values.Append` request with the two
options; a failure is logged and returned. -/
def appendRowData (svc : SheetsService) (spreadSheetID : String) (cellRange : String)
    (rowValues : ValueRange) : Run (Option GoError) :=
  let call : AppendCall :=
    { spreadsheetId := spreadSheetID, range := cellRange, values := rowValues,
      valueInputOption := VALUE_INPUT_OPTION, insertDataOption := INSERT_DATA_OPTION }
  match svc.valuesAppend call with
  | some err =>
    { result := some err, calls := [.valuesAppend call],
      logs := [("failed to append row data :: stacktrace :: ", err)] }
  | none => { result := none, calls := [.valuesAppend call], logs := [] }

/-- The header cells that `AppendColumnHeaders` builds: `sort.Strings(headers)`,
then `h[i] = strings.ToUpper(header)` for each sorted header. -/
def headerCells (caseTable : Char → Char) (headers : List String) : List String :=
  (sortStrings headers).map (ToUpper caseTable)

/-- The batch update of `AppendColumnHeaders`: format row 1 and freeze it. -/
def headerFormatRequests (sheetID : Int) (columns : Nat) : List Request :=
  [ .RepeatCell
      { SheetId := sheetID, StartRowIndex := 0, EndRowIndex := 1,
        StartColumnIndex := 0, EndColumnIndex := columns }
      { VerticalAlignment := "MIDDLE", HorizontalAlignment := "CENTER", Bold := true }
      "userEnteredFormat(verticalAlignment, horizontalAlignment, textFormat)",
    .UpdateSheetProperties sheetID 1 "gridProperties.frozenRowCount" ]

/-- The method `AppendColumnHeaders`: append the header row, then format and
freeze it; the error of either request is returned. `caseTable` is the case
table that `strings.ToUpper` reads. -/
def AppendColumnHeaders (caseTable : Char → Char) (svc : SheetsService)
    (spreadSheetId : String) (sheetID : Int) (sheetTitle : String)
    (headers : List String) : Run (Option GoError) :=
  let h : List JVal := (headerCells caseTable headers).map JVal.str
  let values : ValueRange := { Values := [h] }
  let cellRange := sheetTitle ++ "!R1C1:R1C" ++ toString headers.length
  let appended := appendRowData svc spreadSheetId cellRange values
  match appended.result with
  | some err => { result := some err, calls := appended.calls, logs := appended.logs }
  | none =>
    let req := headerFormatRequests sheetID headers.length
    match svc.batchUpdate spreadSheetId req with
    | some err =>
      { result := some err, calls := appended.calls ++ [.batchUpdate spreadSheetId req],
        logs := appended.logs }
    | none =>
      { result := none, calls := appended.calls ++ [.batchUpdate spreadSheetId req],
        logs := appended.logs }

/-- The pair `Spreadsheets.Values.Get(...).Do()` returns: the value range and
a nil error, or a nil value range and the error. -/
def valuesGetDo (svc : SheetsService) (spreadSheetID : String) (cellRange : String) :
    Option ValueRange × Option GoError :=
  match svc.valuesGet spreadSheetID cellRange with
  | .ok vr => (some vr, none)
  | .error e => (none, some e)

/-- The method `RowCount`: the error of the read is logged, and whatever the
outcome, `len(valueRange.Values)` is evaluated, which dereferences
`valueRange`. -/
def RowCount (svc : SheetsService) (spreadSheetID : String) (cellRange : String) :
    Run (GoResult Nat) :=
  let got := valuesGetDo svc spreadSheetID cellRange
  let logs : List (String × GoError) :=
    match got.2 with
    | some err => [("failed to fetch values :: stacktrace ::", err)]
    | none => []
  match got.1 with
  | none =>
    { result := .panic "runtime error: invalid memory address or nil pointer dereference",
      calls := [.valuesGet spreadSheetID cellRange], logs := logs }
  | some valueRange =>
    { result := .ret valueRange.Values.length,
      calls := [.valuesGet spreadSheetID cellRange], logs := logs }

/-- The keys of the map in the order `WriteToSheet` uses them: collected by a
`range` loop, then `sort.Strings(keys)`. -/
def sortedKeys (iter : MapIter) (m : GoMap) : List String :=
  sortStrings (iter.order m.keys)

/-- The method `WriteToSheet`: validate, convert the record to a map through
JSON, list the values by sorted key and append them as one row to `Sheet1`. -/
def WriteToSheet (svc : SheetsService) (iter : MapIter) (spreadSheetID : String)
    (data : QuestionnarieData) : Run (Option GoError) :=
  match Validate data with
  | some err => { result := some err, calls := [], logs := [] }
  | none =>
    match jsonMarshal data with
    | .error err => { result := some err, calls := [], logs := [] }
    | .ok bytes =>
      match jsonUnmarshal bytes with
      | .error err => { result := some err, calls := [], logs := [] }
      | .ok m =>
        let keys := sortedKeys iter m
        let row := keys.map fun key => m.get key
        let valueRange : ValueRange := { Values := [row] }
        appendRowData svc spreadSheetID "Sheet1" valueRange

/-- The JSON keys of the record, in declaration order of the fields. -/
def wireKeys : List String := questionnaireFields.map StructField.jsonKey

/-- The JSON keys of the record in ascending order: the key of each column of
a value row. -/
def columnKeys : List String := sortStrings wireKeys

/-- The fields of the struct in ascending order of their Go names: the field of
each column of the header row. -/
def columnFields : List StructField :=
  questionnaireFields.insertionSort fun f g => StrLe f.Name g.Name

/-! ## The Kafka client library -/

/-- Go `kafka.ErrorCode`. -/
abbrev ErrorCode := Int

/-- Constant `kafka.ErrNoError`. -/
def kafka.ErrNoError : ErrorCode := 0

/-- Constant `kafka.ErrTopicAlreadyExists`. -/
def kafka.ErrTopicAlreadyExists : ErrorCode := 36

/-- Constant `kafka.ErrInvalidReplicationFactor`. -/
def kafka.ErrInvalidReplicationFactor : ErrorCode := 38

/-- Constant `kafka.ErrInvalidArg`. -/
def kafka.ErrInvalidArg : ErrorCode := -186

/-- Constant `kafka.PartitionAny`. -/
def kafka.PartitionAny : Int := -1

/-- An error returned by the client library: a `kafka.Error` with its code, or
an error of another type. -/
inductive LibError where
  | kafkaError (code : ErrorCode) (text : String)
  | plain (text : String)
deriving DecidableEq, Repr

/-- Go `kafka.TopicSpecification`, the parts this program sets. -/
structure TopicSpecification where
  Topic : String
  NumPartitions : Int
  ReplicationFactor : Int
deriving DecidableEq, Repr

/-- Go `kafka.TopicResult`: the topic and the code of its `Error`. -/
structure TopicResult where
  Topic : String
  Error : ErrorCode
deriving DecidableEq, Repr

/-- Go `kafka.Message`: topic pointer and partition of its `TopicPartition`,
the payload, and `TopicPartition.Error`. -/
structure Message where
  Topic : Option String
  Partition : Int
  Value : String
  Error : Option GoError
deriving DecidableEq, Repr

/-- Go `kafka.Event` as read from `producer.Events()`: a `*kafka.Message`
delivery report, or an event of another type. -/
inductive Event where
  | message (m : Message)
  | other (text : String)
deriving DecidableEq, Repr

/-- A client object of the library (admin client, producer, consumer); a
pointer to one is an `Option Handle`. -/
abbrev Handle := Unit

/-- One call into the client library. -/
inductive KafkaCall where
  | newAdminClient
  | adminClose
  | getMetadata (timeoutMs : Int)
  | createTopics (specs : List TopicSpecification) (operationTimeout : String)
  | produce (m : Message)
  | producerEvents
  | producerClose
  | subscribeTopics (topics : List String)
  | readMessage (timeoutSeconds : Int)
  | consumerClose
deriving DecidableEq, Repr

/-- The client library and the cluster behind it, as a state machine over the
cluster state `σ`: every call answers and leaves a new state. `GetMetadata`
answers with the topic names of `metadata.Topics`; `Events` is the event that
the receive on `producer.Events()` yields. -/
structure KafkaLib (σ : Type) where
  NewAdminClient : σ → Except LibError Handle × σ
  GetMetadata : σ → Except GoError (List String) × σ
  CreateTopics : σ → List TopicSpecification → Except GoError (List TopicResult) × σ
  Produce : σ → Message → Option GoError × σ
  Events : σ → Event × σ
  SubscribeTopics : σ → List String → Option GoError × σ
  ReadMessage : σ → Int → Except GoError Message × σ

/-- What a call of a handler method does: how it ends, the cluster state it
leaves, its calls into the library, in order, and the `logger.Error` entries
it wrote (`logger.Info` entries are left out). -/
structure KRun (σ : Type) (α : Type) where
  result : GoResult α
  cluster : σ
  calls : List KafkaCall
  logs : List (String × GoError)

/-- The panic of a nil pointer dereference. -/
def nilDereference : String :=
  "runtime error: invalid memory address or nil pointer dereference"

/-! ## `pkg/kafka-handler/kafka.go` -/

/-- Variable `ErrInvalidAdminConfig`. -/
def ErrInvalidAdminConfig : GoError := "invalid kafka AdminClient configuration"

/-- Variable `ErrFailedTopicCreation`. -/
def ErrFailedTopicCreation : GoError := "failed to create kafka topic"

/-- Variable `ErrTopicAlreadyExists`. -/
def ErrTopicAlreadyExists : GoError := "topic already exists"

/-- Variable `ErrFailedProducerCreation`. -/
def ErrFailedProducerCreation : GoError := "failed to create new producer"

/-- Variable `ErrFailedConsumerClose`. -/
def ErrFailedConsumerClose : GoError := "failed to close consumer"

/-- The struct `KafkaHandler`: the key set of its `topics` map (the
configuration and the logger are left out). -/
structure KafkaHandler where
  topics : List String
deriving DecidableEq, Repr

/-- The function `createAdmin` on the outcome of `kafka.NewAdminClient`: a
`kafka.Error` is returned, as `ErrInvalidAdminConfig` for the code
`ErrInvalidArg`; an error of another type falls through to
`return admin, nil` with the nil admin. -/
def createAdmin (r : Except LibError Handle) : Option Handle × Option GoError :=
  match r with
  | .ok admin => (some admin, none)
  | .error (.kafkaError code text) =>
    if code = kafka.ErrInvalidArg then (none, some ErrInvalidAdminConfig)
    else (none, some text)
  | .error (.plain _) => (none, none)

/-- The function `newMessage`. -/
def newMessage (topic : String) (message : String) : Message :=
  { Topic := some topic, Partition := kafka.PartitionAny, Value := message,
    Error := none }

/-- The method `IsTopicExist`: a failure to create the admin client is logged
only, after which `admin.GetMetadata` runs on the nil admin; a metadata
failure is returned wrapped; otherwise the topic is looked up in the
metadata. `admin.Close()` is deferred. -/
def IsTopicExist {σ : Type} (K : KafkaLib σ) (s : σ) (topic : String) :
    KRun σ (Bool × Option GoError) :=
  let created := K.NewAdminClient s
  let adm := createAdmin created.1
  let logs : List (String × GoError) :=
    match adm.2 with
    | some err => [("failed to create kafka admin client  :: stacktrace :: ", err)]
    | none => []
  match adm.1 with
  | none =>
    { result := .panic nilDereference, cluster := created.2,
      calls := [.newAdminClient], logs := logs }
  | some _ =>
    let md := K.GetMetadata created.2
    match md.1 with
    | .error err =>
      { result := .ret (false, some ("failed to get metadata :: stacktrace :: " ++ err)),
        cluster := md.2,
        calls := [.newAdminClient, .getMetadata 5000000000, .adminClose], logs := logs }
    | .ok names =>
      { result := .ret (names.any (fun name => name == topic), none),
        cluster := md.2,
        calls := [.newAdminClient, .getMetadata 5000000000, .adminClose], logs := logs }

/-- The topic specification that `CreateTopic` sends. -/
def topicSpecification (topic : String) : TopicSpecification :=
  { Topic := topic, NumPartitions := 1, ReplicationFactor := 3 }

/-- The method `CreateTopic`: a failure to create the admin client is logged
only, after which `admin.CreateTopics` runs on the nil admin; a failed request
is logged and gives `ErrFailedTopicCreation`; among the per-topic results, one
whose code is `ErrTopicAlreadyExists` gives `ErrTopicAlreadyExists`; in every
other case the topic is stored in `k.topics` and nil is returned.
(`time.ParseDuration` of the constant `60s` cannot fail.) -/
def CreateTopic {σ : Type} (K : KafkaLib σ) (s : σ) (k : KafkaHandler) (topic : String) :
    KRun σ (Option GoError × KafkaHandler) :=
  let created := K.NewAdminClient s
  let adm := createAdmin created.1
  let logs : List (String × GoError) :=
    match adm.2 with
    | some err => [("failed to create kafka admin client :: stacktrace :: ", err)]
    | none => []
  match adm.1 with
  | none =>
    { result := .panic nilDereference, cluster := created.2,
      calls := [.newAdminClient], logs := logs }
  | some _ =>
    let specs := [topicSpecification topic]
    let resp := K.CreateTopics created.2 specs
    let calls : List KafkaCall :=
      [.newAdminClient, .createTopics specs "60s", .adminClose]
    match resp.1 with
    | .error err =>
      { result := .ret (some ErrFailedTopicCreation, k), cluster := resp.2, calls := calls,
        logs := logs ++ [("failed to create kafka topic :: stacktrace ::", err)] }
    | .ok results =>
      if results.any (fun result =>
          decide (result.Error ≠ kafka.ErrNoError) &&
            decide (result.Error = kafka.ErrTopicAlreadyExists)) then
        { result := .ret (some ErrTopicAlreadyExists, k), cluster := resp.2,
          calls := calls, logs := logs }
      else
        { result := .ret (none, { k with topics := k.topics.insert topic }),
          cluster := resp.2, calls := calls, logs := logs }

/-- The method `Publish` for a non-nil producer: the topic is looked up and
created when absent, the error of either step being returned; then the
message is produced, `producer.Close()` is deferred, one event is received
and asserted to be a `*kafka.Message`, and its delivery error, if any, is
logged and returned. -/
def Publish {σ : Type} (K : KafkaLib σ) (s : σ) (k : KafkaHandler) (topic : String)
    (message : String) : KRun σ (Option GoError × KafkaHandler) :=
  let ex := IsTopicExist K s topic
  match ex.result with
  | .panic msg =>
    { result := .panic msg, cluster := ex.cluster, calls := ex.calls, logs := ex.logs }
  | .ret (_, some err) =>
    { result := .ret (some err, k), cluster := ex.cluster, calls := ex.calls,
      logs := ex.logs }
  | .ret (isExist, none) =>
    let ct : KRun σ (Option GoError × KafkaHandler) :=
      if isExist then
        { result := .ret (none, k), cluster := ex.cluster, calls := [], logs := [] }
      else CreateTopic K ex.cluster k topic
    match ct.result with
    | .panic msg =>
      { result := .panic msg, cluster := ct.cluster, calls := ex.calls ++ ct.calls,
        logs := ex.logs ++ ct.logs }
    | .ret (some err, k1) =>
      { result := .ret (some err, k1), cluster := ct.cluster,
        calls := ex.calls ++ ct.calls, logs := ex.logs ++ ct.logs }
    | .ret (none, k1) =>
      let m := newMessage topic message
      let pr := K.Produce ct.cluster m
      match pr.1 with
      | some err =>
        { result := .ret (some err, k1), cluster := pr.2,
          calls := ex.calls ++ ct.calls ++ [.produce m], logs := ex.logs ++ ct.logs }
      | none =>
        let ev := K.Events pr.2
        let calls : List KafkaCall :=
          ex.calls ++ ct.calls ++ [.produce m, .producerEvents, .producerClose]
        match ev.1 with
        | .other _ =>
          { result := .panic "interface conversion: kafka.Event is not *kafka.Message",
            cluster := ev.2, calls := calls, logs := ex.logs ++ ct.logs }
        | .message eventResponse =>
          match eventResponse.Error with
          | some err =>
            { result := .ret (some err, k1), cluster := ev.2, calls := calls,
              logs := ex.logs ++ ct.logs ++
                [("message delivery failed :: stacktrace ::", err)] }
          | none =>
            { result := .ret (none, k1), cluster := ev.2, calls := calls,
              logs := ex.logs ++ ct.logs }

/-- The method `Subscribe`: `SubscribeTopics` on the consumer (a nil consumer
is dereferenced there); its failure is logged and returned before
`consumer.Close()` is deferred; otherwise the first pass of the loop reads
one message with a timeout of ten seconds and returns it, or logs and returns
the wrapped read error. -/
def Subscribe {σ : Type} (K : KafkaLib σ) (s : σ) (consumer : Option Handle)
    (topics : List String) : KRun σ (Option Message × Option GoError) :=
  match consumer with
  | none => { result := .panic nilDereference, cluster := s, calls := [], logs := [] }
  | some _ =>
    let sub := K.SubscribeTopics s topics
    match sub.1 with
    | some err =>
      { result := .ret (none, some err), cluster := sub.2,
        calls := [.subscribeTopics topics],
        logs := [("failed to subscribe to kafka :: stacktrace :: %v", err)] }
    | none =>
      let rd := K.ReadMessage sub.2 10
      let calls : List KafkaCall :=
        [.subscribeTopics topics, .readMessage 10, .consumerClose]
      match rd.1 with
      | .ok message =>
        { result := .ret (some message, none), cluster := rd.2, calls := calls, logs := [] }
      | .error err =>
        { result := .ret (none, some ("failed to read message, " ++ err)), cluster := rd.2,
          calls := calls,
          logs := [("failed to read message from kafka :: stacktrace ::", err)] }

/-! ## `internal/services/google/auth.go` -/

/-- Go `oauth2.Token`, the parts that identify it. -/
structure Token where
  AccessToken : String
  RefreshToken : String
deriving DecidableEq, Repr

/-- Variable `ErrInvalidAuthGrantCode`. -/
def ErrInvalidAuthGrantCode : GoError := "invalid auth grant code to provision accessToken"

/-- Variable `ErrUserDeniedPermission`. -/
def ErrUserDeniedPermission : GoError := "user denied permission"

/-- What a call of an authentication method does: the pair it returns, the
codes it sent to `config.Exchange`, in order, and the errors it logged. -/
structure AuthRun where
  result : Option Token × Option GoError
  exchanges : List String
  logs : List (String × GoError)
deriving DecidableEq, Repr

/-- The method `ExchangeCode`; `exchange` is the outcome of the remote
`config.Exchange` for a code. -/
def ExchangeCode (exchange : String → Except GoError Token) (code : String) : AuthRun :=
  if code = "" then
    { result := (none, some "code not found to provide an access token"),
      exchanges := [], logs := [] }
  else
    match exchange code with
    | .error err =>
      { result := (none, some "google code exchange failed"), exchanges := [code],
        logs := [("google code exchange failed with: ", err)] }
    | .ok token => { result := (some token, none), exchanges := [code], logs := [] }

/-- The method `HandleGoogleCallback`: the empty code is refused first, then a
non-empty error reason, `user_denied` with its own error; otherwise the code
is exchanged. -/
def HandleGoogleCallback (exchange : String → Except GoError Token) (code : String)
    (errorReason : String) : AuthRun :=
  if code = "" then
    { result := (none, some ErrInvalidAuthGrantCode), exchanges := [], logs := [] }
  else if errorReason ≠ "" then
    if errorReason = "user_denied" then
      { result := (none, some ErrUserDeniedPermission), exchanges := [], logs := [] }
    else
      { result := (none, some ("failed to authenticate user due to " ++ errorReason)),
        exchanges := [], logs := [] }
  else
    let ex := ExchangeCode exchange code
    match ex.result.2 with
    | some err => { result := (none, some err), exchanges := ex.exchanges, logs := ex.logs }
    | none => { result := (ex.result.1, none), exchanges := ex.exchanges, logs := ex.logs }

/-! ## `main.go`: the ingestion task -/

/-- The struct `GoogleSheetKafkaMessage` of `internal/model/model.go`. -/
structure GoogleSheetKafkaMessage where
  SpreadSheetID : String
  SheetID : String
  Token : Option Token
  Questionnaire : QuestionnarieData
deriving DecidableEq, Repr

/-- The method `WriteToSheet` called on a client pointer: on a nil client the
method runs until `appendRowData` reads `gs.svc`. -/
def WriteToSheetOn (client : Option SheetsService) (iter : MapIter) (spreadSheetID : String)
    (data : QuestionnarieData) : Run (GoResult (Option GoError)) :=
  match client with
  | some svc =>
    let w := WriteToSheet svc iter spreadSheetID data
    { result := .ret w.result, calls := w.calls, logs := w.logs }
  | none =>
    match Validate data with
    | some err => { result := .ret (some err), calls := [], logs := [] }
    | none =>
      match jsonMarshal data with
      | .error err => { result := .ret (some err), calls := [], logs := [] }
      | .ok _ => { result := .panic nilDereference, calls := [], logs := [] }

/-- What the ingestion task does: how it ends, the cluster state it leaves,
its calls into the Kafka library, its requests to the Sheets service, and the
errors it logged. -/
structure TaskRun (σ : Type) where
  result : GoResult Unit
  cluster : σ
  kafkaCalls : List KafkaCall
  sheetCalls : List Call
  logs : List (String × GoError)

/-- The first goroutine of `main`: subscribe and read one message, log an
error of that step, decode `message.Value` into the envelope, log a decoding
error, build a Sheets client from the token of the envelope and write the
record, logging a write error. `unmarshal` gives the envelope that
`json.Unmarshal` leaves and its error; `newGoogleSheetClient` is
`NewGoogleSheetClient`, nil when the service cannot be built. -/
def ingestionTask {σ : Type} (K : KafkaLib σ) (s : σ) (kafkaConsumer : Option Handle)
    (kafkaTopics : List String)
    (unmarshal : String → GoogleSheetKafkaMessage × Option GoError)
    (newGoogleSheetClient : Option Token → Option SheetsService) (iter : MapIter) :
    TaskRun σ :=
  let sub := Subscribe K s kafkaConsumer kafkaTopics
  match sub.result with
  | .panic msg =>
    { result := .panic msg, cluster := sub.cluster, kafkaCalls := sub.calls,
      sheetCalls := [], logs := sub.logs }
  | .ret (message, err) =>
    let logs1 : List (String × GoError) :=
      sub.logs ++
        match err with
        | some e => [("topic failed subscription failed :: stacktrace :: ", e)]
        | none => []
    match message with
    | none =>
      { result := .panic nilDereference, cluster := sub.cluster, kafkaCalls := sub.calls,
        sheetCalls := [], logs := logs1 }
    | some msg =>
      let dec := unmarshal msg.Value
      let logs2 : List (String × GoError) :=
        logs1 ++
          match dec.2 with
          | some e => [("failed to parse message from broker :: stacktrace ::", e)]
          | none => []
      let w := WriteToSheetOn (newGoogleSheetClient dec.1.Token) iter dec.1.SpreadSheetID
        dec.1.Questionnaire
      match w.result with
      | .panic msg =>
        { result := .panic msg, cluster := sub.cluster, kafkaCalls := sub.calls,
          sheetCalls := w.calls, logs := logs2 ++ w.logs }
      | .ret writeErr =>
        { result := .ret (), cluster := sub.cluster, kafkaCalls := sub.calls,
          sheetCalls := w.calls,
          logs := logs2 ++ w.logs ++
            match writeErr with
            | some e => [("failed to write message to google sheets :: stacktrace ::", e)]
            | none => [] }

/-- A library call is a message read. -/
def KafkaCall.isRead : KafkaCall → Bool
  | .readMessage _ => true
  | _ => false

/-! ## Sample inputs -/

/-- A service on which every request succeeds and every read is empty. -/
def okService : SheetsService :=
  { valuesAppend := fun _ => none, batchUpdate := fun _ _ => none,
    valuesGet := fun _ _ => .ok { Values := [] } }

/-- A case table for the samples: `é` (U+00E9) is mapped to `É` (U+00C9), as
`unicode.ToUpper` does, and every other character is kept. -/
def sampleCaseTable : Char → Char :=
  fun c => if c.toNat = 233 then Char.ofNat 201 else c

/-- A service on which the append succeeds and the formatting batch update
fails. -/
def formatFailService : SheetsService :=
  { valuesAppend := fun _ => none, batchUpdate := fun _ _ => some "formatting failed",
    valuesGet := fun _ _ => .ok { Values := [] } }

/-- A service on which every values read fails. -/
def readFailService : SheetsService :=
  { valuesAppend := fun _ => none, batchUpdate := fun _ _ => none,
    valuesGet := fun _ _ => .error "googleapi: Error 403: forbidden" }

/-- The instant 10000-01-01T00:00:00Z, which `Time.MarshalJSON` refuses. -/
def yearTenThousand : Time := { sec := 315537897600, nsec := 0, rfc3339 := none }

/-- The sample record with its creation time in year 10000: it passes
`Validate` and cannot be marshalled. -/
def unmarshalableRecord : QuestionnarieData :=
  { sampleRecord with CreatedAt := yearTenThousand }

/-- A cluster whose state is the list of the topics it holds: creating a topic
it holds is answered with `ErrTopicAlreadyExists`, any other topic is added;
every other call succeeds, and a read times out. -/
def topicCluster : KafkaLib (List String) :=
  { NewAdminClient := fun s => (.ok (), s),
    GetMetadata := fun s => (.ok s, s),
    CreateTopics := fun s specs =>
      (.ok (specs.map fun spec =>
          { Topic := spec.Topic,
            Error := if spec.Topic ∈ s then kafka.ErrTopicAlreadyExists
              else kafka.ErrNoError }),
        s ++ (specs.map TopicSpecification.Topic).filter (fun name => name ∉ s)),
    Produce := fun s _ => (none, s),
    Events := fun s =>
      (.message { Topic := none, Partition := 0, Value := "", Error := none }, s),
    SubscribeTopics := fun s _ => (none, s),
    ReadMessage := fun s _ => (.error "Local: Timed out", s) }

/-- A cluster with fewer than three brokers: every topic creation is answered
with `ErrInvalidReplicationFactor`. -/
def smallCluster : KafkaLib (List String) :=
  { topicCluster with
    CreateTopics := fun s specs =>
      (.ok (specs.map fun spec =>
          { Topic := spec.Topic, Error := kafka.ErrInvalidReplicationFactor }), s) }

/-- A cluster that holds the topics of its state and answers the creation of a
topic it holds with `ErrTopicAlreadyExists`, but rejects the creation of any
other topic with `ErrInvalidReplicationFactor`, leaving its state as it is. -/
def pickyCluster : KafkaLib (List String) :=
  { topicCluster with
    CreateTopics := fun s specs =>
      (.ok (specs.map fun spec =>
          { Topic := spec.Topic,
            Error := if spec.Topic ∈ s then kafka.ErrTopicAlreadyExists
              else kafka.ErrInvalidReplicationFactor }), s) }

/-- A cluster whose metadata lags behind: the metadata lists no topic, while
every topic creation is answered with `ErrTopicAlreadyExists`. -/
def staleMetadataCluster : KafkaLib (List String) :=
  { topicCluster with
    GetMetadata := fun s => (.ok [], s),
    CreateTopics := fun s specs =>
      (.ok (specs.map fun spec =>
          { Topic := spec.Topic, Error := kafka.ErrTopicAlreadyExists }), s) }

/-- A cluster on which subscribing fails. -/
def noSubscriptionCluster : KafkaLib (List String) :=
  { topicCluster with
    SubscribeTopics := fun s _ => (some "Local: Unknown topic", s) }

/-- A token exchange that accepts every code. -/
def okExchange : String → Except GoError Token :=
  fun code => .ok { AccessToken := code, RefreshToken := "" }

/-- An envelope decoder that returns the sample record for every payload. -/
def sampleUnmarshal : String → GoogleSheetKafkaMessage × Option GoError :=
  fun _ =>
    ({ SpreadSheetID := "S1", SheetID := "0", Token := none,
       Questionnaire := sampleRecord }, none)

/-- A record whose required strings are all empty and whose optional fields
are set. -/
def emptyStringsRecord : QuestionnarieData :=
  { FormID := some "", QuestionID := some "", RuleID := some "r",
    QuestionTitle := some "", QuestionRule := some "x", IsRequired := some false,
    OptionID := some "", Options := some [none, some ""],
    QuestionCreationDate := yearTenThousand,
    Answer := none, SelectedAnswerOptions := some "", AnsweredOn := sampleStart,
    RespondentID := some "", RespondentEmail := some "",
    RespondentPhoneNumber := some "", OrgID := some "", AnswerID := some "",
    FormStartDate := sampleStart, FormEndDate := zeroTime,
    CreatedAt := sampleCreated, UpdatedAt := yearTenThousand }

/-! ## Validation theorems -/

/-- C1: when exactly one required field is absent (nil pointer or zero time)
while the other eight required fields and `Answer` are present, `Validate`
returns the error of that field's check; the nine errors are pairwise distinct
and differ from the "answer(s)" error. -/
theorem Validate_single_missing_field (q : QuestionnarieData) (r : Rule)
    (hr : r ≠ Rule.answers) (hmiss : r.violated q = true)
    (hothers : ∀ g : Rule, g ≠ r → g ≠ Rule.answers → g.violated q = false)
    (hans : q.Answer.isSome = true) :
    Validate q = some r.error ∧
      (∀ g h : Rule, g.error = h.error → g = h) ∧
      r.error ≠ Rule.error Rule.answers := by
  refine ⟨?_, ?_, ?_⟩
  · have h1 := hothers .FormID
    have h2 := hothers .QuestionID
    have h3 := hothers .QuestionTitle
    have h4 := hothers .AnswerID
    have h5 := hothers .RespondentID
    have h6 := hothers .RespondentEmail
    have h7 := hothers .OrgID
    have h8 := hothers .FormStartDate
    have h9 := hothers .CreatedAt
    cases r <;>
      simp [Rule.violated, Option.isSome_iff_ne_none] at hr hmiss hans h1 h2 h3 h4 h5 h6 h7 h8 h9 <;>
      simp [Validate, Rule.error, *]
  · intro g h; cases g <;> cases h <;> decide
  · cases r <;> first | decide | exact absurd rfl hr

/-- Witness for C1: the sample record with its respondent email removed. -/
theorem Validate_single_missing_field_witness :
    Validate { sampleRecord with RespondentEmail := none }
        = some "respondent email cannot be empty" ∧
      (∀ g h : Rule, g.error = h.error → g = h) ∧
      Rule.error Rule.RespondentEmail ≠ Rule.error Rule.answers :=
  Validate_single_missing_field { sampleRecord with RespondentEmail := none }
    Rule.RespondentEmail (by decide) (by decide)
    (by intro g h1 h2; cases g <;> first | rfl | exact absurd rfl h1)
    (by decide)


/-- C2: when all nine required fields are present, `Validate` returns nil
exactly when at least one of `Answer` and `SelectedAnswerOptions` is present,
and returns the "answer(s)" error when both are absent. -/
theorem Validate_answers_rule (q : QuestionnarieData)
    (hreq : ∀ g : Rule, g ≠ Rule.answers → g.violated q = false) :
    (Validate q = none ↔
        (q.Answer.isSome = true ∨ q.SelectedAnswerOptions.isSome = true)) ∧
      (q.Answer = none ∧ q.SelectedAnswerOptions = none →
        Validate q = some "answer(s) cannot be empty") := by
  have h1 := hreq .FormID
  have h2 := hreq .QuestionID
  have h3 := hreq .QuestionTitle
  have h4 := hreq .AnswerID
  have h5 := hreq .RespondentID
  have h6 := hreq .RespondentEmail
  have h7 := hreq .OrgID
  have h8 := hreq .FormStartDate
  have h9 := hreq .CreatedAt
  simp [Rule.violated, Option.isSome_iff_ne_none] at h1 h2 h3 h4 h5 h6 h7 h8 h9
  constructor
  · cases ha : q.Answer <;> cases hs : q.SelectedAnswerOptions <;>
      simp [Validate, *]
  · rintro ⟨ha, hs⟩
    simp [Validate, *]

/-- Witness for C2: the sample record answers through `Answer` and is accepted. -/
theorem Validate_answers_rule_witness :
    (Validate sampleRecord = none ↔
        (sampleRecord.Answer.isSome = true ∨
          sampleRecord.SelectedAnswerOptions.isSome = true)) ∧
      (sampleRecord.Answer = none ∧ sampleRecord.SelectedAnswerOptions = none →
        Validate sampleRecord = some "answer(s) cannot be empty") :=
  Validate_answers_rule sampleRecord
    (by intro g _; cases g <;> rfl)

/-- C3, as the code has it: `Validate` returns the error of the first violated
rule in the order of the source, in which the at-least-one-answer rule is
checked fifth, right after the answer identifier and before the respondent
identifier; it returns nil when no rule is violated. -/
theorem Validate_first_violation_source_order (q : QuestionnarieData) :
    Validate q = firstViolation sourceRuleOrder q := by
  simp only [Validate, firstViolation, sourceRuleOrder, List.find?, Rule.violated]
  repeat' split
  all_goals simp_all [Rule.error]

/-- C3 fails as stated: a record that lacks both answers and the respondent
identifier is reported with the "answer(s)" error, whereas the first violated
rule in the order of the specification is the respondent identifier. -/
theorem Validate_not_spec_order :
    Validate { sampleRecord with Answer := none, RespondentID := none }
        = some "answer(s) cannot be empty" ∧
      firstViolation specRuleOrder
          { sampleRecord with Answer := none, RespondentID := none }
        = some "respondent id cannot be empty" ∧
      Validate { sampleRecord with Answer := none, RespondentID := none }
        ≠ firstViolation specRuleOrder
            { sampleRecord with Answer := none, RespondentID := none } := by
  decide


/-! ## Ordering and sorting lemmas -/

theorem sortStrings_perm (l : List String) : (sortStrings l).Perm l :=
  List.perm_insertionSort StrLe l

theorem sortStrings_sorted (l : List String) : (sortStrings l).Sorted StrLe :=
  List.sorted_insertionSort StrLe l

/-- Sorting forgets the order of its input. -/
theorem sortStrings_eq_of_perm {l₁ l₂ : List String} (h : l₁.Perm l₂) :
    sortStrings l₁ = sortStrings l₂ :=
  List.eq_of_perm_of_sorted
    (((sortStrings_perm l₁).trans h).trans (sortStrings_perm l₂).symm)
    (sortStrings_sorted l₁) (sortStrings_sorted l₂)

theorem sortedKeys_eq (iter : MapIter) (m : GoMap) :
    sortedKeys iter m = sortStrings m.keys :=
  sortStrings_eq_of_perm (iter.perm m.keys)

/-! ## Map lemmas -/

theorem GoMap.set_fresh (m : GoMap) (k : String) (v : JVal) (h : k ∉ m.keys) :
    m.set k v = m ++ [(k, v)] := by
  unfold GoMap.set
  have : m.any (fun e => e.1 == k) = false := by
    rw [Bool.eq_false_iff]
    intro hany
    rw [List.any_eq_true] at hany
    obtain ⟨e, he, hek⟩ := hany
    have : e.1 = k := by simpa using hek
    exact h (this ▸ List.mem_map_of_mem Prod.fst he)
  simp [this]

theorem foldl_set_of_nodup (members : List (String × JVal)) :
    ∀ acc : GoMap, (GoMap.keys (acc ++ members)).Nodup →
      members.foldl (fun m e => GoMap.set m e.1 e.2) acc = acc ++ members := by
  induction members with
  | nil => intro acc _; simp
  | cons e rest ih =>
    intro acc h
    have hfresh : e.1 ∉ GoMap.keys acc := by
      intro hmem
      simp only [GoMap.keys, List.map_append, List.map_cons] at h hmem
      have := (List.nodup_append.mp h).2.2
      exact this hmem (List.mem_cons_self _ _)
    simp only [List.foldl_cons]
    rw [GoMap.set_fresh acc e.1 e.2 hfresh, ih]
    · simp
    · simpa using h

theorem jsonUnmarshal_of_nodup (members : List (String × JVal))
    (h : (members.map Prod.fst).Nodup) : jsonUnmarshal members = .ok members := by
  unfold jsonUnmarshal
  rw [foldl_set_of_nodup members [] (by simpa [GoMap.keys] using h)]
  simp

theorem GoMap.get_of_mem (m : GoMap) (k : String) (v : JVal)
    (hnd : m.keys.Nodup) (hmem : (k, v) ∈ m) : m.get k = v := by
  unfold GoMap.get
  induction m with
  | nil => simp at hmem
  | cons e rest ih =>
    obtain ⟨k0, v0⟩ := e
    simp only [GoMap.keys, List.map_cons, List.nodup_cons] at hnd
    rcases List.mem_cons.mp hmem with heq | htail
    · cases heq
      simp [List.lookup]
    · have hne : k ≠ k0 := by
        intro hk
        exact hnd.1 (hk ▸ List.mem_map_of_mem Prod.fst htail)
      have hbeq : (k == k0) = false := by simpa using hne
      simp only [List.lookup, hbeq]
      exact ih hnd.2 htail

/-! ## Marshalling lemmas -/

theorem marshalFields_ok (q : QuestionnarieData) :
    ∀ (fs : List StructField) (bytes : List (String × JVal)),
      marshalFields q fs = .ok bytes →
        bytes.map Prod.fst = fs.map StructField.jsonKey ∧
          ∀ f ∈ fs, ∃ v, f.encode q = .ok v ∧ (f.jsonKey, v) ∈ bytes := by
  intro fs
  induction fs with
  | nil =>
    intro bytes h
    simp [marshalFields] at h
    subst h
    simp
  | cons f fs ih =>
    intro bytes h
    simp only [marshalFields] at h
    cases hf : f.encode q with
    | error e => simp [hf] at h
    | ok v =>
      cases hrest : marshalFields q fs with
      | error e => simp [hf, hrest] at h
      | ok rest =>
        simp [hf, hrest] at h
        subst h
        obtain ⟨hk, hv⟩ := ih rest hrest
        refine ⟨by simp [hk], ?_⟩
        intro g hg
        rcases List.mem_cons.mp hg with rfl | hg
        · exact ⟨v, hf, List.mem_cons_self _ _⟩
        · obtain ⟨w, hw, hmem⟩ := hv g hg
          exact ⟨w, hw, List.mem_cons_of_mem _ hmem⟩

theorem wireKeys_nodup : wireKeys.Nodup := by decide

/-- A record that marshals decodes into a map holding, under the key of every
field, the JSON form of that field. -/
theorem marshalled_map (q : QuestionnarieData) (bytes : List (String × JVal))
    (h : jsonMarshal q = .ok bytes) :
    jsonUnmarshal bytes = .ok bytes ∧ GoMap.keys bytes = wireKeys ∧
      ∀ f ∈ questionnaireFields, f.encode q = .ok (GoMap.get bytes f.jsonKey) := by
  obtain ⟨hk, hv⟩ := marshalFields_ok q questionnaireFields bytes h
  have hkeys : GoMap.keys bytes = wireKeys := hk
  have hnd : (GoMap.keys bytes).Nodup := hkeys ▸ wireKeys_nodup
  refine ⟨jsonUnmarshal_of_nodup bytes hnd, hkeys, ?_⟩
  intro f hf
  obtain ⟨v, hv1, hv2⟩ := hv f hf
  rw [GoMap.get_of_mem bytes f.jsonKey v hnd hv2]
  exact hv1

/-! ## Lemmas on the client methods -/

theorem appendRowData_calls (svc : SheetsService) (sid cellRange : String)
    (v : ValueRange) :
    (appendRowData svc sid cellRange v).calls =
      [.valuesAppend
        { spreadsheetId := sid, range := cellRange, values := v,
          valueInputOption := VALUE_INPUT_OPTION,
          insertDataOption := INSERT_DATA_OPTION }] := by
  simp only [appendRowData]
  split <;> rfl

theorem appendRowData_result (svc : SheetsService) (sid cellRange : String)
    (v : ValueRange) :
    (appendRowData svc sid cellRange v).result =
      svc.valuesAppend
        { spreadsheetId := sid, range := cellRange, values := v,
          valueInputOption := VALUE_INPUT_OPTION,
          insertDataOption := INSERT_DATA_OPTION } := by
  simp only [appendRowData]
  split <;> simp_all

theorem AppendColumnHeaders_rows (caseTable : Char → Char) (svc : SheetsService)
    (sid : String) (sheetID : Int) (title : String) (headers : List String) :
    (AppendColumnHeaders caseTable svc sid sheetID title headers).rows =
      [(headerCells caseTable headers).map JVal.str] := by
  unfold AppendColumnHeaders
  simp only []
  split
  · simp [Run.rows, appendRowData_calls]
  · split <;> simp [Run.rows, appendRowData_calls]

/-- A record that passes validation and marshals is written as one append
request whose row lists the map values by ascending key. -/
theorem WriteToSheet_of_marshal (svc : SheetsService) (iter : MapIter) (sid : String)
    (q : QuestionnarieData) (bytes : List (String × JVal))
    (hv : Validate q = none) (hm : jsonMarshal q = .ok bytes) :
    WriteToSheet svc iter sid q =
      appendRowData svc sid "Sheet1"
        { Values := [columnKeys.map fun key => GoMap.get bytes key] } := by
  obtain ⟨hu, hk, _⟩ := marshalled_map q bytes hm
  unfold WriteToSheet
  simp only [hv, hm, hu]
  rw [sortedKeys_eq, hk]
  rfl

/-- A record that passes validation but does not marshal is not written. -/
theorem WriteToSheet_of_marshal_error (svc : SheetsService) (iter : MapIter)
    (sid : String) (q : QuestionnarieData) (e : GoError)
    (hv : Validate q = none) (hm : jsonMarshal q = .error e) :
    WriteToSheet svc iter sid q = { result := some e, calls := [], logs := [] } := by
  unfold WriteToSheet
  simp only [hv, hm]

theorem WriteToSheet_rows_of_marshal (svc : SheetsService) (iter : MapIter)
    (sid : String) (q : QuestionnarieData) (bytes : List (String × JVal))
    (hv : Validate q = none) (hm : jsonMarshal q = .ok bytes) :
    (WriteToSheet svc iter sid q).rows =
      [columnKeys.map fun key => GoMap.get bytes key] := by
  rw [WriteToSheet_of_marshal svc iter sid q bytes hv hm]
  simp [Run.rows, appendRowData_calls]

theorem WriteToSheet_rows_subset (svc : SheetsService) (iter : MapIter)
    (sid : String) (q : QuestionnarieData) (hv : Validate q = none)
    (row : List JVal) (hrow : row ∈ (WriteToSheet svc iter sid q).rows) :
    ∃ bytes, jsonMarshal q = .ok bytes ∧
      row = columnKeys.map fun key => GoMap.get bytes key := by
  cases hm : jsonMarshal q with
  | error e =>
    rw [WriteToSheet_of_marshal_error svc iter sid q e hv hm] at hrow
    simp [Run.rows] at hrow
  | ok bytes =>
    rw [WriteToSheet_rows_of_marshal svc iter sid q bytes hv hm] at hrow
    exact ⟨bytes, rfl, by simpa using hrow⟩

/-! ## Column lemmas -/

theorem columnFields_perm : columnFields.Perm questionnaireFields :=
  List.perm_insertionSort _ _

theorem columnFields_length : columnFields.length = 21 := by
  rw [columnFields_perm.length_eq]; rfl

theorem columnKeys_eq : columnKeys = columnFields.map StructField.jsonKey := by
  decide

/-- The field names are ASCII, so their upper-casing does not read the case
table. -/
theorem upper_field_names (caseTable : Char → Char) :
    getSheetHeaders.map (ToUpper caseTable) =
      ["FORMID", "QUESTIONID", "RULEID", "QUESTIONTITLE", "QUESTIONRULE", "ISREQUIRED",
       "OPTIONID", "OPTIONS", "QUESTIONCREATIONDATE", "ANSWER", "SELECTEDANSWEROPTIONS",
       "ANSWEREDON", "RESPONDENTID", "RESPONDENTEMAIL", "RESPONDENTPHONENUMBER", "ORGID",
       "ANSWERID", "FORMSTARTDATE", "FORMENDDATE", "CREATEDAT", "UPDATEDAT"] := by
  rfl

theorem headerCells_fields (caseTable : Char → Char) :
    headerCells caseTable getSheetHeaders =
      ["ANSWER", "ANSWERID", "ANSWEREDON", "CREATEDAT", "FORMENDDATE", "FORMID",
       "FORMSTARTDATE", "ISREQUIRED", "OPTIONID", "OPTIONS", "ORGID",
       "QUESTIONCREATIONDATE", "QUESTIONID", "QUESTIONRULE", "QUESTIONTITLE",
       "RESPONDENTEMAIL", "RESPONDENTID", "RESPONDENTPHONENUMBER", "RULEID",
       "SELECTEDANSWEROPTIONS", "UPDATEDAT"] := by
  rfl

theorem headerCells_eq (caseTable : Char → Char) :
    headerCells caseTable getSheetHeaders =
      columnFields.map fun f => ToUpper caseTable f.Name := by
  rfl

theorem fieldNamed_upper (caseTable : Char → Char) (f : StructField)
    (hf : f ∈ questionnaireFields) :
    fieldNamed caseTable (ToUpper caseTable f.Name) = some f := by
  simp only [questionnaireFields, List.mem_cons, List.mem_singleton, List.not_mem_nil,
    or_false] at hf
  rcases hf with h | h | h | h | h | h | h | h | h | h | h | h | h | h | h | h | h | h |
    h | h | h <;> subst h <;> rfl

theorem fieldOfKey_jsonKey (f : StructField) (hf : f ∈ questionnaireFields) :
    fieldOfKey f.jsonKey = some f := by
  simp only [questionnaireFields, List.mem_cons, List.mem_singleton, List.not_mem_nil,
    or_false] at hf
  rcases hf with h | h | h | h | h | h | h | h | h | h | h | h | h | h | h | h | h | h |
    h | h | h <;> subst h <;> rfl

/-! ## Header row and value row -/

/-- C4: for every record accepted by `Validate`, the header row that
`AppendColumnHeaders` sends for `getSheetHeaders` and every value row that
`WriteToSheet` sends have one entry per field of the struct, 21, and at every
position the value of the row is the JSON form of the one field whose Go name
equals the header of that position up to letter case; the value row is sent
whenever the record marshals. -/
theorem header_row_aligned_with_value_row (caseTable : Char → Char)
    (svcH svcW : SheetsService)
    (iter : MapIter) (sidH sidW title : String) (sheetID : Int)
    (q : QuestionnarieData) (hv : Validate q = none) :
    ∃ hdr : List JVal,
      (AppendColumnHeaders caseTable svcH sidH sheetID title getSheetHeaders).rows
        = [hdr] ∧
      questionnaireFields.length = 21 ∧ hdr.length = 21 ∧
      (getSheetHeaders.map (ToUpper caseTable)).Nodup ∧
      (marshals q = true → (WriteToSheet svcW iter sidW q).rows.length = 1) ∧
      ∀ row ∈ (WriteToSheet svcW iter sidW q).rows,
        row.length = 21 ∧
        ∀ i, i < 21 → ∃ (h : String) (f : StructField) (v : JVal),
          hdr[i]? = some (JVal.str h) ∧ row[i]? = some v ∧
            fieldNamed caseTable h = some f ∧ f.encode q = .ok v := by
  refine ⟨(headerCells caseTable getSheetHeaders).map JVal.str,
    AppendColumnHeaders_rows caseTable svcH sidH sheetID title getSheetHeaders, rfl,
    by rw [headerCells_fields]; rfl, by rw [upper_field_names]; decide, ?_, ?_⟩
  · intro hm
    unfold marshals at hm
    cases hj : jsonMarshal q with
    | error e => simp [hj] at hm
    | ok bytes => simp [WriteToSheet_rows_of_marshal svcW iter sidW q bytes hv hj]
  · intro row hrow
    obtain ⟨bytes, hm, rfl⟩ := WriteToSheet_rows_subset svcW iter sidW q hv row hrow
    obtain ⟨_, _, henc⟩ := marshalled_map q bytes hm
    rw [columnKeys_eq, headerCells_eq]
    refine ⟨by simp [columnFields_length], ?_⟩
    intro i hi
    have hlen : i < columnFields.length := by rw [columnFields_length]; exact hi
    have hmem : columnFields[i] ∈ questionnaireFields :=
      columnFields_perm.subset (List.getElem_mem hlen)
    refine ⟨ToUpper caseTable columnFields[i].Name, columnFields[i],
      GoMap.get bytes columnFields[i].jsonKey, ?_, ?_, fieldNamed_upper caseTable _ hmem,
      henc _ hmem⟩
    · simp [List.getElem?_eq_getElem hlen]
    · simp [List.getElem?_eq_getElem hlen]

/-- Witness for C4: the sample record on a service that accepts everything. -/
theorem header_row_aligned_with_value_row_witness :
    Validate sampleRecord = none ∧
    ∃ hdr : List JVal,
      (AppendColumnHeaders sampleCaseTable okService "S1" 0 "Sheet1"
        getSheetHeaders).rows = [hdr] ∧
      questionnaireFields.length = 21 ∧ hdr.length = 21 ∧
      (getSheetHeaders.map (ToUpper sampleCaseTable)).Nodup ∧
      (marshals sampleRecord = true →
        (WriteToSheet okService MapIter.backward "S1" sampleRecord).rows.length = 1) ∧
      ∀ row ∈ (WriteToSheet okService MapIter.backward "S1" sampleRecord).rows,
        row.length = 21 ∧
        ∀ i, i < 21 → ∃ (h : String) (f : StructField) (v : JVal),
          hdr[i]? = some (JVal.str h) ∧ row[i]? = some v ∧
            fieldNamed sampleCaseTable h = some f ∧ f.encode sampleRecord = .ok v :=
  ⟨by decide,
    header_row_aligned_with_value_row sampleCaseTable okService okService
      MapIter.backward "S1" "S1" "Sheet1" 0 sampleRecord (by decide)⟩

/-- C5, as the code has it: for every list of header names, whatever
characters they hold, the header row that `AppendColumnHeaders` sends is the
upper-casing by `strings.ToUpper`, position by position, of the names arranged
in ascending order; the names are sorted before they are upper-cased. -/
theorem header_row_is_upper_cased_sorted_names (caseTable : Char → Char)
    (svc : SheetsService) (sid : String)
    (sheetID : Int) (title : String) (headers : List String) :
    ∃ sorted : List String,
      sorted.Perm headers ∧ sorted.Sorted StrLe ∧
        (AppendColumnHeaders caseTable svc sid sheetID title headers).rows =
          [sorted.map fun name => JVal.str (ToUpper caseTable name)] := by
  refine ⟨sortStrings headers, sortStrings_perm headers, sortStrings_sorted headers, ?_⟩
  rw [AppendColumnHeaders_rows]
  simp [headerCells]

/-- C5 fails as stated: the header row sent for `getSheetHeaders` has
`ANSWERID` at position 1 and the smaller `ANSWEREDON` at position 2, so it is
not ascending; nor is the row sent for the names `a`, `B`; for the names `é`,
`z` the row is `Z`, `É`. -/
theorem header_row_not_ascending :
    (AppendColumnHeaders sampleCaseTable okService "S1" 0 "Sheet1"
          getSheetHeaders).rows =
        [(headerCells sampleCaseTable getSheetHeaders).map JVal.str] ∧
      (headerCells sampleCaseTable getSheetHeaders)[1]? = some "ANSWERID" ∧
      (headerCells sampleCaseTable getSheetHeaders)[2]? = some "ANSWEREDON" ∧
      ¬ StrLe "ANSWERID" "ANSWEREDON" ∧
      isAscending (headerCells sampleCaseTable getSheetHeaders) = false ∧
      headerCells sampleCaseTable ["a", "B"] = ["B", "A"] ∧
      isAscending (headerCells sampleCaseTable ["a", "B"]) = false ∧
      headerCells sampleCaseTable ["é", "z"] = ["Z", "É"] := by
  decide

/-- C6, as the code has it: the header row sent for `getSheetHeaders` consists
of the upper-cased Go field names of the struct, so that it contains `ANSWER`,
`ANSWERID` and `CREATEDAT`; for every record accepted by `Validate` and every
row that `WriteToSheet` sends, the value at each position of the row is the
map value of the key of that position, and the header of that position is the
upper-cased Go name of the field whose JSON key that is; the row is sent
whenever the record marshals. -/
theorem header_row_is_upper_cased_go_names (caseTable : Char → Char)
    (svcH svcW : SheetsService) (iter : MapIter) (sidH sidW title : String)
    (sheetID : Int) (q : QuestionnarieData) (hv : Validate q = none) :
    ∃ hdr : List String,
      (AppendColumnHeaders caseTable svcH sidH sheetID title getSheetHeaders).rows =
          [hdr.map JVal.str] ∧
        hdr.Perm (getSheetHeaders.map (ToUpper caseTable)) ∧
        "ANSWER" ∈ hdr ∧ "ANSWERID" ∈ hdr ∧ "CREATEDAT" ∈ hdr ∧ hdr.length = 21 ∧
        (marshals q = true → (WriteToSheet svcW iter sidW q).rows.length = 1) ∧
        ∀ row ∈ (WriteToSheet svcW iter sidW q).rows,
          ∃ (bytes : List (String × JVal)) (m : GoMap),
            jsonMarshal q = .ok bytes ∧ jsonUnmarshal bytes = .ok m ∧
            row = (sortedKeys iter m).map (fun key => m.get key) ∧
            row.length = 21 ∧
            ∀ i, i < 21 → ∃ (key : String) (f : StructField),
              (sortedKeys iter m)[i]? = some key ∧ row[i]? = some (m.get key) ∧
                fieldOfKey key = some f ∧ f.encode q = .ok (m.get key) ∧
                hdr[i]? = some (ToUpper caseTable f.Name) := by
  refine ⟨headerCells caseTable getSheetHeaders,
    AppendColumnHeaders_rows caseTable svcH sidH sheetID title getSheetHeaders, ?_,
    by rw [headerCells_fields]; decide, by rw [headerCells_fields]; decide,
    by rw [headerCells_fields]; decide, by rw [headerCells_fields]; rfl, ?_, ?_⟩
  · exact (sortStrings_perm getSheetHeaders).map (ToUpper caseTable)
  · intro hm
    unfold marshals at hm
    cases hj : jsonMarshal q with
    | error e => simp [hj] at hm
    | ok bytes => simp [WriteToSheet_rows_of_marshal svcW iter sidW q bytes hv hj]
  · intro row hrow
    obtain ⟨bytes, hm, rfl⟩ := WriteToSheet_rows_subset svcW iter sidW q hv row hrow
    obtain ⟨hu, hk, henc⟩ := marshalled_map q bytes hm
    have hsk : sortedKeys iter bytes = columnKeys := by
      rw [sortedKeys_eq, hk]
      rfl
    refine ⟨bytes, bytes, hm, hu, by rw [hsk], ?_, ?_⟩
    · rw [columnKeys_eq]
      simp [columnFields_length]
    · intro i hi
      have hlen : i < columnFields.length := by rw [columnFields_length]; exact hi
      have hmem : columnFields[i] ∈ questionnaireFields :=
        columnFields_perm.subset (List.getElem_mem hlen)
      refine ⟨columnFields[i].jsonKey, columnFields[i], ?_, ?_,
        fieldOfKey_jsonKey _ hmem, henc _ hmem, ?_⟩
      · rw [hsk, columnKeys_eq]
        simp [List.getElem?_eq_getElem hlen]
      · rw [columnKeys_eq]
        simp [List.getElem?_eq_getElem hlen]
      · rw [headerCells_eq]
        simp [List.getElem?_eq_getElem hlen]

/-- Witness for C6: the header row and the row of the sample record. -/
theorem header_row_is_upper_cased_go_names_witness :
    Validate sampleRecord = none ∧
    ∃ hdr : List String,
      (AppendColumnHeaders sampleCaseTable okService "S1" 0 "Sheet1"
          getSheetHeaders).rows = [hdr.map JVal.str] ∧
        hdr.Perm (getSheetHeaders.map (ToUpper sampleCaseTable)) ∧
        "ANSWER" ∈ hdr ∧ "ANSWERID" ∈ hdr ∧ "CREATEDAT" ∈ hdr ∧ hdr.length = 21 ∧
        (marshals sampleRecord = true →
          (WriteToSheet okService MapIter.forward "S1" sampleRecord).rows.length = 1) ∧
        ∀ row ∈ (WriteToSheet okService MapIter.forward "S1" sampleRecord).rows,
          ∃ (bytes : List (String × JVal)) (m : GoMap),
            jsonMarshal sampleRecord = .ok bytes ∧ jsonUnmarshal bytes = .ok m ∧
            row = (sortedKeys MapIter.forward m).map (fun key => m.get key) ∧
            row.length = 21 ∧
            ∀ i, i < 21 → ∃ (key : String) (f : StructField),
              (sortedKeys MapIter.forward m)[i]? = some key ∧
                row[i]? = some (m.get key) ∧
                fieldOfKey key = some f ∧ f.encode sampleRecord = .ok (m.get key) ∧
                hdr[i]? = some (ToUpper sampleCaseTable f.Name) :=
  ⟨by decide,
    header_row_is_upper_cased_go_names sampleCaseTable okService okService
      MapIter.forward "S1" "S1" "Sheet1" 0 sampleRecord (by decide)⟩

/-- C6 fails as stated: the header row sent for `getSheetHeaders` contains
neither `ANSWER_ID` nor `CREATED_AT`; at position 1 the header is `ANSWERID`,
while the row that `WriteToSheet` sends for the sample record holds at
position 1 the answer identifier `A1`, the value of the key `answer_id`, whose
upper-casing is `ANSWER_ID`. -/
theorem header_row_not_wire_names :
    (AppendColumnHeaders sampleCaseTable okService "S1" 0 "Sheet1"
          getSheetHeaders).rows =
        [(headerCells sampleCaseTable getSheetHeaders).map JVal.str] ∧
      "ANSWER_ID" ∉ headerCells sampleCaseTable getSheetHeaders ∧
      "CREATED_AT" ∉ headerCells sampleCaseTable getSheetHeaders ∧
      (headerCells sampleCaseTable getSheetHeaders)[1]? = some "ANSWERID" ∧
      (WriteToSheet okService MapIter.forward "S1" sampleRecord).rows.map
          (fun row => row[1]?) = [some (JVal.str "A1")] ∧
      sampleRecord.AnswerID = some "A1" ∧
      (∀ m : GoMap, (jsonMarshal sampleRecord).bind jsonUnmarshal = .ok m →
        (sortedKeys MapIter.forward m)[1]? = some "answer_id" ∧
          m.get "answer_id" = JVal.str "A1") ∧
      ToUpper sampleCaseTable "answer_id" = "ANSWER_ID" ∧
      "ANSWERID" ≠ ToUpper sampleCaseTable "answer_id" := by
  refine ⟨by decide, by decide, by decide, by decide, by decide, by decide, ?_,
    by decide, by decide⟩
  intro m hm
  cases hj : jsonMarshal sampleRecord with
  | error e => simp [hj, Except.bind] at hm
  | ok bytes =>
    obtain ⟨hu, hk, henc⟩ := marshalled_map sampleRecord bytes hj
    simp only [hj, Except.bind, hu, Except.ok.injEq] at hm
    subst hm
    refine ⟨?_, ?_⟩
    · rw [sortedKeys_eq, hk]
      decide
    · have h := henc ⟨"AnswerID", "answer_id", fun q => .ok (encPtrString q.AnswerID)⟩
        (by simp [questionnaireFields])
      simpa [sampleRecord, encPtrString] using h.symm

/-- C7: for every valid record, every row that `WriteToSheet` sends lists the
values of the map of the record by ascending key, one value per key of the
map; the keys of the positions are the same for every iteration order of the
map and for every record, and so is the whole run of `WriteToSheet` for every
iteration order; the row is sent whenever the record marshals. -/
theorem WriteToSheet_row_in_key_order (svc : SheetsService) (iter : MapIter)
    (sid : String) (q : QuestionnarieData) (hv : Validate q = none) :
    (marshals q = true → (WriteToSheet svc iter sid q).rows.length = 1) ∧
    (∀ iter2 : MapIter, WriteToSheet svc iter2 sid q = WriteToSheet svc iter sid q) ∧
    ∀ row ∈ (WriteToSheet svc iter sid q).rows,
      ∃ (bytes : List (String × JVal)) (m : GoMap),
        jsonMarshal q = .ok bytes ∧ jsonUnmarshal bytes = .ok m ∧
        row = (sortedKeys iter m).map (fun key => m.get key) ∧
        (sortedKeys iter m).Sorted StrLe ∧
        (sortedKeys iter m).Nodup ∧
        (sortedKeys iter m).Perm m.keys ∧
        (∀ iter2 : MapIter, sortedKeys iter2 m = sortedKeys iter m) ∧
        sortedKeys iter m = columnKeys := by
  refine ⟨?_, ?_, ?_⟩
  · intro hm
    unfold marshals at hm
    cases hj : jsonMarshal q with
    | error e => simp [hj] at hm
    | ok bytes => simp [WriteToSheet_rows_of_marshal svc iter sid q bytes hv hj]
  · intro iter2
    cases hj : jsonMarshal q with
    | error e =>
      rw [WriteToSheet_of_marshal_error svc iter sid q e hv hj,
        WriteToSheet_of_marshal_error svc iter2 sid q e hv hj]
    | ok bytes =>
      rw [WriteToSheet_of_marshal svc iter sid q bytes hv hj,
        WriteToSheet_of_marshal svc iter2 sid q bytes hv hj]
  · intro row hrow
    obtain ⟨bytes, hm, rfl⟩ := WriteToSheet_rows_subset svc iter sid q hv row hrow
    obtain ⟨hu, hk, _⟩ := marshalled_map q bytes hm
    have hsk : ∀ it : MapIter, sortedKeys it bytes = columnKeys := by
      intro it
      rw [sortedKeys_eq, hk]
      rfl
    refine ⟨bytes, bytes, hm, hu, by rw [hsk], ?_, ?_, ?_, ?_, hsk iter⟩
    · exact sortStrings_sorted _
    · rw [hsk]; decide
    · rw [sortedKeys_eq]; exact sortStrings_perm _
    · intro iter2; rw [hsk, hsk]

/-- Witness for C7: the sample record, its map visited in reverse order. -/
theorem WriteToSheet_row_in_key_order_witness :
    Validate sampleRecord = none ∧
    (marshals sampleRecord = true →
      (WriteToSheet okService MapIter.backward "S1" sampleRecord).rows.length = 1) ∧
    (∀ iter2 : MapIter, WriteToSheet okService iter2 "S1" sampleRecord
      = WriteToSheet okService MapIter.backward "S1" sampleRecord) ∧
    ∀ row ∈ (WriteToSheet okService MapIter.backward "S1" sampleRecord).rows,
      ∃ (bytes : List (String × JVal)) (m : GoMap),
        jsonMarshal sampleRecord = .ok bytes ∧ jsonUnmarshal bytes = .ok m ∧
        row = (sortedKeys MapIter.backward m).map (fun key => m.get key) ∧
        (sortedKeys MapIter.backward m).Sorted StrLe ∧
        (sortedKeys MapIter.backward m).Nodup ∧
        (sortedKeys MapIter.backward m).Perm m.keys ∧
        (∀ iter2 : MapIter, sortedKeys iter2 m = sortedKeys MapIter.backward m) ∧
        sortedKeys MapIter.backward m = columnKeys :=
  ⟨by decide,
    WriteToSheet_row_in_key_order okService MapIter.backward "S1" sampleRecord
      (by decide)⟩

/-! ## Requests and failures -/

/-- C8, as the code has it: when `Validate` rejects the record, `WriteToSheet`
sends no request and returns the error of `Validate`; when `Validate` accepts
the record and the record marshals, it sends exactly one append request, for
the given spreadsheet, carrying exactly one row with insert option
`INSERT_ROWS`, and returns the error of that request, so it fails exactly when
the request fails; when `Validate` accepts the record and `json.Marshal`
fails, it sends no request and returns the marshalling error. -/
theorem WriteToSheet_requests (svc : SheetsService) (iter : MapIter) (sid : String)
    (q : QuestionnarieData) :
    (∀ e, Validate q = some e →
      (WriteToSheet svc iter sid q).result = some e ∧
        (WriteToSheet svc iter sid q).calls = []) ∧
    (Validate q = none → marshals q = true →
      ∃ c : AppendCall,
        (WriteToSheet svc iter sid q).calls = [Call.valuesAppend c] ∧
        c.spreadsheetId = sid ∧ c.values.Values.length = 1 ∧
        c.insertDataOption = "INSERT_ROWS" ∧
        (WriteToSheet svc iter sid q).result = svc.valuesAppend c ∧
        ((WriteToSheet svc iter sid q).result ≠ none ↔ svc.valuesAppend c ≠ none)) ∧
    (Validate q = none → marshals q = false →
      ∃ e, jsonMarshal q = .error e ∧
        (WriteToSheet svc iter sid q).result = some e ∧
        (WriteToSheet svc iter sid q).calls = []) := by
  refine ⟨?_, ?_, ?_⟩
  · intro e he
    unfold WriteToSheet
    simp only [he, and_self]
  · intro hv hm
    unfold marshals at hm
    cases hj : jsonMarshal q with
    | error e => simp [hj] at hm
    | ok bytes =>
      rw [WriteToSheet_of_marshal svc iter sid q bytes hv hj]
      refine ⟨_, appendRowData_calls svc sid "Sheet1" _, rfl, rfl, rfl, ?_, ?_⟩
      · exact appendRowData_result svc sid "Sheet1" _
      · rw [appendRowData_result svc sid "Sheet1" _]
  · intro hv hm
    unfold marshals at hm
    cases hj : jsonMarshal q with
    | ok bytes => simp [hj] at hm
    | error e =>
      rw [WriteToSheet_of_marshal_error svc iter sid q e hv hj]
      exact ⟨e, rfl, rfl, rfl⟩

/-- Witness for C8: the sample record is written with one request. -/
theorem WriteToSheet_requests_witness :
    Validate sampleRecord = none ∧ marshals sampleRecord = true ∧
    ∃ c : AppendCall,
      (WriteToSheet okService MapIter.forward "S1" sampleRecord).calls
        = [Call.valuesAppend c] ∧
      c.spreadsheetId = "S1" ∧ c.values.Values.length = 1 ∧
      c.insertDataOption = "INSERT_ROWS" ∧
      (WriteToSheet okService MapIter.forward "S1" sampleRecord).result
        = okService.valuesAppend c ∧
      ((WriteToSheet okService MapIter.forward "S1" sampleRecord).result ≠ none ↔
        okService.valuesAppend c ≠ none) :=
  ⟨by decide, by decide,
    (WriteToSheet_requests okService MapIter.forward "S1" sampleRecord).2.1
      (by decide) (by decide)⟩

/-- C8 fails as stated: a record whose creation time lies in year 10000 is
accepted by `Validate`, yet `WriteToSheet` sends no request for it and returns
an error, on a service on which every append succeeds. -/
theorem WriteToSheet_valid_record_not_written :
    Validate unmarshalableRecord = none ∧
      (WriteToSheet okService MapIter.forward "S1" unmarshalableRecord).calls = [] ∧
      (WriteToSheet okService MapIter.forward "S1" unmarshalableRecord).result
        = some marshalTimeError ∧
      ∀ c : AppendCall, okService.valuesAppend c = none :=
  ⟨by decide, by decide, by decide, fun _ => rfl⟩

/-- C9, as the code has it: when the header-row append succeeds and the
formatting and freeze batch update fails, `AppendColumnHeaders` returns the
error of the batch update; it has sent the append and the batch update and
nothing else, so the appended header row is left in place. -/
theorem AppendColumnHeaders_format_failure (caseTable : Char → Char)
    (svc : SheetsService) (sid : String)
    (sheetID : Int) (title : String) (headers : List String) (e : GoError)
    (happ : (appendRowData svc sid (title ++ "!R1C1:R1C" ++ toString headers.length)
      { Values := [(headerCells caseTable headers).map JVal.str] }).result = none)
    (hfmt : svc.batchUpdate sid (headerFormatRequests sheetID headers.length) = some e) :
    (AppendColumnHeaders caseTable svc sid sheetID title headers).result = some e ∧
      (AppendColumnHeaders caseTable svc sid sheetID title headers).calls =
        [Call.valuesAppend
          { spreadsheetId := sid,
            range := title ++ "!R1C1:R1C" ++ toString headers.length,
            values := { Values := [(headerCells caseTable headers).map JVal.str] },
            valueInputOption := "RAW", insertDataOption := "INSERT_ROWS" },
         Call.batchUpdate sid (headerFormatRequests sheetID headers.length)] := by
  unfold AppendColumnHeaders
  simp only [happ, hfmt, appendRowData_calls]
  exact ⟨trivial, rfl⟩

/-- Witness for C9: the headers of the record on a service whose batch update
fails. -/
theorem AppendColumnHeaders_format_failure_witness :
    (AppendColumnHeaders sampleCaseTable formatFailService "S1" 0 "Sheet1"
          getSheetHeaders).result
        = some "formatting failed" ∧
      (AppendColumnHeaders sampleCaseTable formatFailService "S1" 0 "Sheet1"
          getSheetHeaders).calls =
        [Call.valuesAppend
          { spreadsheetId := "S1",
            range := "Sheet1" ++ "!R1C1:R1C" ++ toString getSheetHeaders.length,
            values :=
              { Values := [(headerCells sampleCaseTable getSheetHeaders).map JVal.str] },
            valueInputOption := "RAW", insertDataOption := "INSERT_ROWS" },
         Call.batchUpdate "S1" (headerFormatRequests 0 getSheetHeaders.length)] :=
  AppendColumnHeaders_format_failure sampleCaseTable formatFailService "S1" 0 "Sheet1"
    getSheetHeaders "formatting failed" rfl rfl

/-- C9 fails as stated: on a service whose append succeeds and whose batch
update fails, `AppendColumnHeaders` does not return nil. -/
theorem AppendColumnHeaders_format_failure_is_returned :
    (appendRowData formatFailService "S1" "Sheet1!R1C1:R1C21"
        { Values := [(headerCells sampleCaseTable getSheetHeaders).map JVal.str] }).result
        = none ∧
      (AppendColumnHeaders sampleCaseTable formatFailService "S1" 0 "Sheet1"
          getSheetHeaders).result
        = some "formatting failed" ∧
      (AppendColumnHeaders sampleCaseTable formatFailService "S1" 0 "Sheet1"
          getSheetHeaders).result
        ≠ none := by
  decide

/-- C10, as the code has it: when the values read fails, `RowCount` logs the
failure and then panics on the nil value range instead of returning 0; when
the read succeeds it returns the number of rows of the value range and logs
nothing. -/
theorem RowCount_outcomes (svc : SheetsService) (sid : String) (cellRange : String) :
    (∀ e, svc.valuesGet sid cellRange = .error e →
      (RowCount svc sid cellRange).result =
          GoResult.panic "runtime error: invalid memory address or nil pointer dereference" ∧
        (RowCount svc sid cellRange).result ≠ GoResult.ret 0 ∧
        (RowCount svc sid cellRange).logs =
          [("failed to fetch values :: stacktrace ::", e)]) ∧
    (∀ vr, svc.valuesGet sid cellRange = .ok vr →
      (RowCount svc sid cellRange).result = GoResult.ret vr.Values.length ∧
        (RowCount svc sid cellRange).logs = []) := by
  constructor
  · intro e he
    simp [RowCount, valuesGetDo, he]
  · intro vr hvr
    simp [RowCount, valuesGetDo, hvr]

/-- Witness for C10: a read that fails with a 403 makes `RowCount` panic. -/
theorem RowCount_outcomes_witness :
    (RowCount readFailService "S1" "Sheet1").result =
        GoResult.panic "runtime error: invalid memory address or nil pointer dereference" ∧
      (RowCount readFailService "S1" "Sheet1").result ≠ GoResult.ret 0 ∧
      (RowCount readFailService "S1" "Sheet1").logs =
        [("failed to fetch values :: stacktrace ::", "googleapi: Error 403: forbidden")] :=
  (RowCount_outcomes readFailService "S1" "Sheet1").1
    "googleapi: Error 403: forbidden" rfl

/-! ## Topic creation -/

/-- With a working admin client and an answered request, `CreateTopic` is
decided by whether some per-topic result carries `ErrTopicAlreadyExists`. -/
theorem CreateTopic_of_results {σ : Type} (K : KafkaLib σ) (s s1 s2 : σ)
    (k : KafkaHandler) (topic : String) (admin : Handle) (results : List TopicResult)
    (hadmin : K.NewAdminClient s = (.ok admin, s1))
    (hresp : K.CreateTopics s1 [topicSpecification topic] = (.ok results, s2)) :
    (CreateTopic K s k topic).result =
      if results.any (fun result =>
          decide (result.Error ≠ kafka.ErrNoError) &&
            decide (result.Error = kafka.ErrTopicAlreadyExists)) then
        .ret (some ErrTopicAlreadyExists, k)
      else .ret (none, { k with topics := k.topics.insert topic }) := by
  simp only [CreateTopic, hadmin, createAdmin, hresp]
  split <;> rfl

/-- C11, as the code has it: when no per-topic result carries the code
`ErrTopicAlreadyExists`, `CreateTopic` returns nil and adds the topic to the
topic set of the handler, whatever other error codes the results carry. -/
theorem CreateTopic_ignores_result_errors {σ : Type} (K : KafkaLib σ) (s s1 s2 : σ)
    (k : KafkaHandler) (topic : String) (admin : Handle) (results : List TopicResult)
    (hadmin : K.NewAdminClient s = (.ok admin, s1))
    (hresp : K.CreateTopics s1 [topicSpecification topic] = (.ok results, s2))
    (hcodes : ∀ r ∈ results, r.Error ≠ kafka.ErrTopicAlreadyExists) :
    (CreateTopic K s k topic).result =
      .ret (none, { k with topics := k.topics.insert topic }) := by
  rw [CreateTopic_of_results K s s1 s2 k topic admin results hadmin hresp]
  have hany : results.any (fun result =>
      decide (result.Error ≠ kafka.ErrNoError) &&
        decide (result.Error = kafka.ErrTopicAlreadyExists)) = false := by
    rw [Bool.eq_false_iff]
    intro h
    rw [List.any_eq_true] at h
    obtain ⟨r, hr, hcode⟩ := h
    simp only [Bool.and_eq_true, decide_eq_true_eq] at hcode
    exact hcodes r hr hcode.2
  rw [hany]
  rfl

/-- Witness for C11: on a cluster that answers the creation of `t` with
`ErrInvalidReplicationFactor`, `CreateTopic` returns nil, not
`ErrFailedTopicCreation`, and stores `t` in the topic set. -/
theorem CreateTopic_ignores_result_errors_witness :
    smallCluster.CreateTopics [] [topicSpecification "t"] =
        (.ok [{ Topic := "t", Error := kafka.ErrInvalidReplicationFactor }], []) ∧
      kafka.ErrInvalidReplicationFactor ≠ kafka.ErrNoError ∧
      (CreateTopic smallCluster [] { topics := [] } "t").result =
        .ret (none, { topics := ["t"] }) :=
  ⟨rfl, by decide,
    CreateTopic_ignores_result_errors smallCluster [] [] [] { topics := [] } "t" ()
      [{ Topic := "t", Error := kafka.ErrInvalidReplicationFactor }] rfl rfl
      (by decide)⟩

/-- With a working admin client, `CreateTopic` leaves the cluster in the state
in which the creation request left it. -/
theorem CreateTopic_cluster {σ : Type} (K : KafkaLib σ) (s : σ) (k : KafkaHandler)
    (topic : String) (admin : Handle) (hadmin : (K.NewAdminClient s).1 = .ok admin) :
    (CreateTopic K s k topic).cluster =
      (K.CreateTopics (K.NewAdminClient s).2 [topicSpecification topic]).2 := by
  simp only [CreateTopic, hadmin, createAdmin]
  split
  · rfl
  · split <;> rfl

/-- With a working admin client and an answered request, `CreateTopic`
returns. -/
theorem CreateTopic_returns {σ : Type} (K : KafkaLib σ) (s : σ) (k : KafkaHandler)
    (topic : String) (admin : Handle) (results : List TopicResult)
    (hadmin : (K.NewAdminClient s).1 = .ok admin)
    (hresp : (K.CreateTopics (K.NewAdminClient s).2 [topicSpecification topic]).1 =
      .ok results) :
    ∃ (e1 : Option GoError) (k1 : KafkaHandler),
      (CreateTopic K s k topic).result = .ret (e1, k1) := by
  simp only [CreateTopic, hadmin, createAdmin, hresp]
  split
  · exact ⟨_, _, rfl⟩
  · exact ⟨_, _, rfl⟩

/-- With a working admin client, a creation request answered with a result
that carries `ErrTopicAlreadyExists` makes `CreateTopic` return
`ErrTopicAlreadyExists` and keep the topic set. -/
theorem CreateTopic_already_exists {σ : Type} (K : KafkaLib σ) (s : σ)
    (k : KafkaHandler) (topic : String) (admin : Handle) (results : List TopicResult)
    (hadmin : (K.NewAdminClient s).1 = .ok admin)
    (hresp : (K.CreateTopics (K.NewAdminClient s).2 [topicSpecification topic]).1 =
      .ok results)
    (hreport : ∃ r ∈ results, r.Error = kafka.ErrTopicAlreadyExists) :
    (CreateTopic K s k topic).result = .ret (some ErrTopicAlreadyExists, k) := by
  have hany : results.any (fun result =>
      decide (result.Error ≠ kafka.ErrNoError) &&
        decide (result.Error = kafka.ErrTopicAlreadyExists)) = true := by
    rw [List.any_eq_true]
    obtain ⟨r, hr, hcode⟩ := hreport
    refine ⟨r, hr, ?_⟩
    simp only [Bool.and_eq_true, decide_eq_true_eq]
    exact ⟨by rw [hcode]; decide, hcode⟩
  simp only [CreateTopic, hadmin, createAdmin, hresp, hany]
  rfl

/-- C12, as the code has it: take a cluster on which an admin client can
always be created, which answers the creation of a topic it holds with a
result that carries `ErrTopicAlreadyExists`, and which holds a topic once it
has reported it created. When the cluster holds `t` before the first
`CreateTopic(t)`, or answers the first call by reporting `t` created, the
first call returns and the second `CreateTopic(t)`, run on the cluster state
and the handler that the first call left, returns `ErrTopicAlreadyExists`,
which is neither `ErrFailedTopicCreation` nor nil, and keeps the topic set. -/
theorem CreateTopic_twice_already_exists {σ : Type} (K : KafkaLib σ)
    (holds : σ → String → Prop) (s : σ) (k : KafkaHandler) (topic : String)
    (hadmin : ∀ s0 : σ, (∃ admin, (K.NewAdminClient s0).1 = .ok admin) ∧
      ∀ t, holds s0 t → holds (K.NewAdminClient s0).2 t)
    (hreports : ∀ (s0 : σ) (t : String), holds s0 t →
      (∃ results, (K.CreateTopics s0 [topicSpecification t]).1 = .ok results ∧
        ∃ r ∈ results, r.Error = kafka.ErrTopicAlreadyExists) ∧
      holds (K.CreateTopics s0 [topicSpecification t]).2 t)
    (hcreates : ∀ (s0 : σ) (t : String) (results : List TopicResult),
      (K.CreateTopics s0 [topicSpecification t]).1 = .ok results →
      (∃ r ∈ results, r.Topic = t ∧ r.Error = kafka.ErrNoError) →
      holds (K.CreateTopics s0 [topicSpecification t]).2 t)
    (hfirst : holds s topic ∨
      ∃ results,
        (K.CreateTopics (K.NewAdminClient s).2 [topicSpecification topic]).1 =
          .ok results ∧
        ∃ r ∈ results, r.Topic = topic ∧ r.Error = kafka.ErrNoError) :
    ∃ (e1 : Option GoError) (k1 : KafkaHandler),
      (CreateTopic K s k topic).result = .ret (e1, k1) ∧
      (CreateTopic K (CreateTopic K s k topic).cluster k1 topic).result =
        .ret (some ErrTopicAlreadyExists, k1) ∧
      ErrTopicAlreadyExists ≠ ErrFailedTopicCreation ∧
      (some ErrTopicAlreadyExists : Option GoError) ≠ none := by
  obtain ⟨⟨admin, hadm⟩, hkeep⟩ := hadmin s
  -- the first call returns, and leaves the cluster holding the topic
  have hfirst_run : (∃ results,
        (K.CreateTopics (K.NewAdminClient s).2 [topicSpecification topic]).1 =
          .ok results) ∧
      holds (CreateTopic K s k topic).cluster topic := by
    rw [CreateTopic_cluster K s k topic admin hadm]
    rcases hfirst with hheld | ⟨results, hresp, hcreated⟩
    · obtain ⟨⟨results, hresp, _⟩, hstill⟩ := hreports _ topic (hkeep topic hheld)
      exact ⟨⟨results, hresp⟩, hstill⟩
    · exact ⟨⟨results, hresp⟩, hcreates _ topic results hresp hcreated⟩
  obtain ⟨⟨results, hresp⟩, hheld⟩ := hfirst_run
  obtain ⟨e1, k1, hret⟩ := CreateTopic_returns K s k topic admin results hadm hresp
  refine ⟨e1, k1, hret, ?_, by decide, by simp⟩
  -- the second call meets a cluster that holds the topic
  obtain ⟨⟨admin2, hadm2⟩, hkeep2⟩ := hadmin (CreateTopic K s k topic).cluster
  obtain ⟨⟨results2, hresp2, hreport2⟩, _⟩ := hreports _ topic (hkeep2 topic hheld)
  exact CreateTopic_already_exists K _ k1 topic admin2 results2 hadm2 hresp2 hreport2

/-- Witness for C12: on a cluster that starts without topics and keeps the
topics it creates, the first `CreateTopic` of `t` creates it and the second
one reports that it exists. -/
theorem CreateTopic_twice_already_exists_witness :
    (CreateTopic topicCluster [] { topics := [] } "t").result =
        .ret (none, { topics := ["t"] }) ∧
      (CreateTopic topicCluster (CreateTopic topicCluster [] { topics := [] } "t").cluster
          { topics := ["t"] } "t").result =
        .ret (some ErrTopicAlreadyExists, { topics := ["t"] }) ∧
      ∃ (e1 : Option GoError) (k1 : KafkaHandler),
        (CreateTopic topicCluster [] { topics := [] } "t").result = .ret (e1, k1) ∧
        (CreateTopic topicCluster
            (CreateTopic topicCluster [] { topics := [] } "t").cluster k1 "t").result =
          .ret (some ErrTopicAlreadyExists, k1) ∧
        ErrTopicAlreadyExists ≠ ErrFailedTopicCreation ∧
        (some ErrTopicAlreadyExists : Option GoError) ≠ none :=
  ⟨by decide, by decide,
    CreateTopic_twice_already_exists topicCluster (fun held t => t ∈ held) []
      { topics := [] } "t"
      (fun _ => ⟨⟨(), rfl⟩, fun _ h => h⟩)
      (fun s0 t h =>
        ⟨⟨[{ Topic := t, Error := kafka.ErrTopicAlreadyExists }],
            by simp [topicCluster, topicSpecification, h],
            ⟨_, List.mem_singleton.mpr rfl, rfl⟩⟩,
          by simp [topicCluster, topicSpecification, h]⟩)
      (fun s0 t _ _ _ => by
        by_cases h : t ∈ s0 <;> simp [topicCluster, topicSpecification, h])
      (Or.inr ⟨[{ Topic := "t", Error := kafka.ErrNoError }], rfl,
        ⟨_, List.mem_singleton.mpr rfl, rfl, rfl⟩⟩)⟩

/-- C12 fails as stated: a cluster that answers the creation of a topic it
holds with `ErrTopicAlreadyExists`, but rejects the creation of `t` with
`ErrInvalidReplicationFactor`, makes `CreateTopic(t)` return nil on the first
call and nil again on the second. -/
theorem CreateTopic_twice_on_rejecting_cluster :
    (∀ (held : List String) (t : String), t ∈ held →
      pickyCluster.CreateTopics held [topicSpecification t] =
        (.ok [{ Topic := t, Error := kafka.ErrTopicAlreadyExists }], held)) ∧
      (CreateTopic pickyCluster [] { topics := [] } "t").result =
        .ret (none, { topics := ["t"] }) ∧
      (CreateTopic pickyCluster (CreateTopic pickyCluster [] { topics := [] } "t").cluster
          { topics := ["t"] } "t").result = .ret (none, { topics := ["t"] }) ∧
      (CreateTopic pickyCluster (CreateTopic pickyCluster [] { topics := [] } "t").cluster
          { topics := ["t"] } "t").result ≠
        .ret (some ErrTopicAlreadyExists, { topics := ["t"] }) := by
  refine ⟨?_, by decide, by decide, by decide⟩
  intro held t h
  simp [pickyCluster, topicSpecification, h]

/-! ## Publishing and subscribing -/

theorem IsTopicExist_no_produce {σ : Type} (K : KafkaLib σ) (s : σ) (topic : String)
    (m : Message) : KafkaCall.produce m ∉ (IsTopicExist K s topic).calls := by
  simp only [IsTopicExist]
  split
  · simp
  · split <;> simp

theorem CreateTopic_no_produce {σ : Type} (K : KafkaLib σ) (s : σ) (k : KafkaHandler)
    (topic : String) (m : Message) :
    KafkaCall.produce m ∉ (CreateTopic K s k topic).calls := by
  simp only [CreateTopic]
  split
  · simp
  · split
    · simp
    · split <;> simp

/-- C13, as the code has it: when `Publish` finds the topic absent and its
`CreateTopic` call returns `ErrTopicAlreadyExists`, `Publish` returns
`ErrTopicAlreadyExists` to its caller and does not send the message. -/
theorem Publish_returns_already_exists {σ : Type} (K : KafkaLib σ) (s : σ)
    (k k1 : KafkaHandler) (topic : String) (message : String)
    (habsent : (IsTopicExist K s topic).result = .ret (false, none))
    (hcreate : (CreateTopic K (IsTopicExist K s topic).cluster k topic).result =
      .ret (some ErrTopicAlreadyExists, k1)) :
    (Publish K s k topic message).result = .ret (some ErrTopicAlreadyExists, k1) ∧
      ∀ m : Message, KafkaCall.produce m ∉ (Publish K s k topic message).calls := by
  have hcalls : (Publish K s k topic message).calls =
      (IsTopicExist K s topic).calls ++
        (CreateTopic K (IsTopicExist K s topic).cluster k topic).calls := by
    simp [Publish, habsent, hcreate]
  refine ⟨by simp [Publish, habsent, hcreate], ?_⟩
  intro m hm
  rw [hcalls, List.mem_append] at hm
  rcases hm with h | h
  · exact IsTopicExist_no_produce K s topic m h
  · exact CreateTopic_no_produce K _ k topic m h

/-- Witness for C13: a cluster whose metadata does not list the topic yet and
which answers its creation with `ErrTopicAlreadyExists`. -/
theorem Publish_returns_already_exists_witness :
    (Publish staleMetadataCluster [] { topics := [] } "t" "payload").result =
        .ret (some ErrTopicAlreadyExists, { topics := [] }) ∧
      ∀ m : Message, KafkaCall.produce m ∉
        (Publish staleMetadataCluster [] { topics := [] } "t" "payload").calls :=
  Publish_returns_already_exists staleMetadataCluster [] { topics := [] }
    { topics := [] } "t" "payload" (by decide) (by decide)

/-- C13 fails as stated: on a cluster whose metadata does not list the topic
and which answers its creation with `ErrTopicAlreadyExists`, `Publish` finds
the topic absent, its `CreateTopic` returns `ErrTopicAlreadyExists`, and
`Publish` returns that error after six library calls, none of which produces
the message. -/
theorem Publish_does_not_send_after_already_exists :
    (IsTopicExist staleMetadataCluster [] "t").result = .ret (false, none) ∧
      (CreateTopic staleMetadataCluster [] { topics := [] } "t").result =
        .ret (some ErrTopicAlreadyExists, { topics := [] }) ∧
      (Publish staleMetadataCluster [] { topics := [] } "t" "payload").result =
        .ret (some ErrTopicAlreadyExists, { topics := [] }) ∧
      (Publish staleMetadataCluster [] { topics := [] } "t" "payload").calls =
        [.newAdminClient, .getMetadata 5000000000, .adminClose, .newAdminClient,
         .createTopics [topicSpecification "t"] "60s", .adminClose] ∧
      KafkaCall.produce (newMessage "t" "payload") ∉
        (Publish staleMetadataCluster [] { topics := [] } "t" "payload").calls := by
  decide

/-- C14, as the code has it: for a non-nil consumer, when the subscription
fails `Subscribe` returns its error without reading and without closing the
consumer; when the subscription succeeds it reads exactly once and closes the
consumer as its last call, whether the read yields a message or an error; on
every path it reads at most once. -/
theorem Subscribe_paths {σ : Type} (K : KafkaLib σ) (s : σ) (consumer : Handle)
    (topics : List String) :
    (∀ err, (K.SubscribeTopics s topics).1 = some err →
      (Subscribe K s (some consumer) topics).result = .ret (none, some err) ∧
        (Subscribe K s (some consumer) topics).calls = [.subscribeTopics topics]) ∧
    ((K.SubscribeTopics s topics).1 = none →
      (Subscribe K s (some consumer) topics).calls =
          [.subscribeTopics topics, .readMessage 10, .consumerClose] ∧
        (∀ message, (K.ReadMessage (K.SubscribeTopics s topics).2 10).1 = .ok message →
          (Subscribe K s (some consumer) topics).result = .ret (some message, none)) ∧
        (∀ err, (K.ReadMessage (K.SubscribeTopics s topics).2 10).1 = .error err →
          (Subscribe K s (some consumer) topics).result =
            .ret (none, some ("failed to read message, " ++ err)))) ∧
    ((Subscribe K s (some consumer) topics).calls.filter KafkaCall.isRead).length ≤ 1 := by
  refine ⟨?_, ?_, ?_⟩
  · intro err herr
    simp [Subscribe, herr]
  · intro hsub
    refine ⟨?_, ?_, ?_⟩
    · simp only [Subscribe, hsub]
      split <;> rfl
    · intro message hread
      simp [Subscribe, hsub, hread]
    · intro err hread
      simp [Subscribe, hsub, hread]
  · simp only [Subscribe]
    split
    · simp [KafkaCall.isRead]
    · split <;> simp [KafkaCall.isRead]

/-- Witness for C14: a read that times out after a successful subscription. -/
theorem Subscribe_paths_witness :
    (Subscribe topicCluster [] (some ()) ["t"]).calls =
        [.subscribeTopics ["t"], .readMessage 10, .consumerClose] ∧
      (∀ message, (topicCluster.ReadMessage
            (topicCluster.SubscribeTopics [] ["t"]).2 10).1 = .ok message →
        (Subscribe topicCluster [] (some ()) ["t"]).result = .ret (some message, none)) ∧
      (∀ err, (topicCluster.ReadMessage
            (topicCluster.SubscribeTopics [] ["t"]).2 10).1 = .error err →
        (Subscribe topicCluster [] (some ()) ["t"]).result =
          .ret (none, some ("failed to read message, " ++ err))) :=
  (Subscribe_paths topicCluster [] () ["t"]).2.1 rfl

/-- C14 fails as stated: when the subscription fails, `Subscribe` returns
with `SubscribeTopics` as its only library call, so the consumer has not been
closed. -/
theorem Subscribe_failure_leaves_consumer_open :
    (Subscribe noSubscriptionCluster [] (some ()) ["t"]).result =
        .ret (none, some "Local: Unknown topic") ∧
      (Subscribe noSubscriptionCluster [] (some ()) ["t"]).calls =
        [.subscribeTopics ["t"]] ∧
      KafkaCall.consumerClose ∉
        (Subscribe noSubscriptionCluster [] (some ()) ["t"]).calls := by
  decide

/-! ## The OAuth callback -/

/-- C15, as the code has it: for every non-empty authorization code,
`HandleGoogleCallback(code, "user_denied")` fails with
`ErrUserDeniedPermission`; for the empty code it fails with
`ErrInvalidAuthGrantCode`, the code being checked first; in neither case is a
token exchanged. -/
theorem HandleGoogleCallback_user_denied (exchange : String → Except GoError Token)
    (code : String) :
    (code ≠ "" →
      (HandleGoogleCallback exchange code "user_denied").result =
          (none, some ErrUserDeniedPermission) ∧
        (HandleGoogleCallback exchange code "user_denied").exchanges = []) ∧
    (code = "" →
      (HandleGoogleCallback exchange code "user_denied").result =
          (none, some ErrInvalidAuthGrantCode) ∧
        (HandleGoogleCallback exchange code "user_denied").exchanges = []) := by
  have hreason : ("user_denied" : String) ≠ "" := by decide
  constructor
  · intro hcode
    simp [HandleGoogleCallback, hcode, hreason]
  · intro hcode
    simp [HandleGoogleCallback, hcode]

/-- Witness for C15: the code `4/abc` with the reason `user_denied`. -/
theorem HandleGoogleCallback_user_denied_witness :
    (HandleGoogleCallback okExchange "4/abc" "user_denied").result =
        (none, some ErrUserDeniedPermission) ∧
      (HandleGoogleCallback okExchange "4/abc" "user_denied").exchanges = [] :=
  (HandleGoogleCallback_user_denied okExchange "4/abc").1 (by decide)

/-- C15 fails as stated: for the empty code, `HandleGoogleCallback` with the
reason `user_denied` fails with `ErrInvalidAuthGrantCode`, which is not
`ErrUserDeniedPermission`. -/
theorem HandleGoogleCallback_empty_code_user_denied :
    (HandleGoogleCallback okExchange "" "user_denied").result =
        (none, some ErrInvalidAuthGrantCode) ∧
      (HandleGoogleCallback okExchange "" "user_denied").result ≠
        (none, some ErrUserDeniedPermission) ∧
      ErrInvalidAuthGrantCode ≠ ErrUserDeniedPermission := by
  decide

/-! ## The ingestion task -/

/-- C16, as the code has it: when `Subscribe` returns an error with a nil
message, the ingestion task logs the error and then panics on
`message.Value`; it has sent nothing to the Sheets service. -/
theorem ingestionTask_subscribe_error {σ : Type} (K : KafkaLib σ) (s : σ)
    (kafkaConsumer : Option Handle) (kafkaTopics : List String)
    (unmarshal : String → GoogleSheetKafkaMessage × Option GoError)
    (newGoogleSheetClient : Option Token → Option SheetsService) (iter : MapIter)
    (err : GoError)
    (hsub : (Subscribe K s kafkaConsumer kafkaTopics).result = .ret (none, some err)) :
    (ingestionTask K s kafkaConsumer kafkaTopics unmarshal newGoogleSheetClient
        iter).result = .panic nilDereference ∧
      (ingestionTask K s kafkaConsumer kafkaTopics unmarshal newGoogleSheetClient
        iter).sheetCalls = [] ∧
      (ingestionTask K s kafkaConsumer kafkaTopics unmarshal newGoogleSheetClient
        iter).logs =
        (Subscribe K s kafkaConsumer kafkaTopics).logs ++
          [("topic failed subscription failed :: stacktrace :: ", err)] := by
  simp [ingestionTask, hsub]

/-- Witness for C16: a read that times out makes the ingestion task panic. -/
theorem ingestionTask_subscribe_error_witness :
    (Subscribe topicCluster [] (some ()) ["t"]).result =
        .ret (none, some "failed to read message, Local: Timed out") ∧
      (ingestionTask topicCluster [] (some ()) ["t"] sampleUnmarshal
        (fun _ => some okService) MapIter.forward).result = .panic nilDereference ∧
      (ingestionTask topicCluster [] (some ()) ["t"] sampleUnmarshal
        (fun _ => some okService) MapIter.forward).sheetCalls = [] ∧
      (ingestionTask topicCluster [] (some ()) ["t"] sampleUnmarshal
        (fun _ => some okService) MapIter.forward).logs =
        (Subscribe topicCluster [] (some ()) ["t"]).logs ++
          [("topic failed subscription failed :: stacktrace :: ",
            "failed to read message, Local: Timed out")] :=
  ⟨by decide,
    ingestionTask_subscribe_error topicCluster [] (some ()) ["t"] sampleUnmarshal
      (fun _ => some okService) MapIter.forward
      "failed to read message, Local: Timed out" (by decide)⟩

/-! ## Presence checks and the target range -/

/-- C17: `Validate` checks presence only: a record whose seven required
string fields are non-nil pointers, whatever they point to, in which `Answer`
or `SelectedAnswerOptions` is non-nil, and whose `FormStartDate` and
`CreatedAt` are not the zero time, is accepted, whatever its other fields. -/
theorem Validate_presence_only (q : QuestionnarieData)
    (hform : q.FormID.isSome = true) (hquestion : q.QuestionID.isSome = true)
    (htitle : q.QuestionTitle.isSome = true) (hanswerID : q.AnswerID.isSome = true)
    (hanswers : q.Answer.isSome = true ∨ q.SelectedAnswerOptions.isSome = true)
    (hrespondent : q.RespondentID.isSome = true)
    (hemail : q.RespondentEmail.isSome = true) (horg : q.OrgID.isSome = true)
    (hstart : q.FormStartDate.IsZero = false) (hcreated : q.CreatedAt.IsZero = false) :
    Validate q = none := by
  simp only [Option.isSome_iff_ne_none] at hform hquestion htitle hanswerID hanswers
  simp only [Option.isSome_iff_ne_none] at hrespondent hemail horg
  have hans : ¬ (q.Answer = none ∧ q.SelectedAnswerOptions = none) := by
    rintro ⟨ha, hs⟩
    rcases hanswers with h | h
    · exact h ha
    · exact h hs
  simp [Validate, *]

/-- Witness for C17: a record whose required strings are all empty. -/
theorem Validate_presence_only_witness : Validate emptyStringsRecord = none :=
  Validate_presence_only emptyStringsRecord (by decide) (by decide) (by decide)
    (by decide) (by decide) (by decide) (by decide) (by decide) (by decide) (by decide)

/-- C18: for every spreadsheet id and every valid record, every append request
of `WriteToSheet` targets the range `Sheet1` of the given spreadsheet, and
such a request is sent whenever the record marshals; the sheet identifier of
the envelope has no influence on the ingestion task, which never passes it
on: replacing it by anything else leaves the whole run unchanged. -/
theorem WriteToSheet_targets_Sheet1 (svc : SheetsService) (iter : MapIter)
    (spreadSheetID : String) (q : QuestionnarieData) (hv : Validate q = none) :
    (marshals q = true →
      ∃ c : AppendCall, (WriteToSheet svc iter spreadSheetID q).calls = [.valuesAppend c]) ∧
    (∀ c : AppendCall, Call.valuesAppend c ∈ (WriteToSheet svc iter spreadSheetID q).calls →
      c.range = "Sheet1" ∧ c.spreadsheetId = spreadSheetID) ∧
    (∀ (σ : Type) (K : KafkaLib σ) (s : σ) (kafkaConsumer : Option Handle)
        (kafkaTopics : List String)
        (unmarshal : String → GoogleSheetKafkaMessage × Option GoError)
        (newGoogleSheetClient : Option Token → Option SheetsService)
        (other : String → String),
      ingestionTask K s kafkaConsumer kafkaTopics
          (fun payload =>
            ({ (unmarshal payload).1 with SheetID := other (unmarshal payload).1.SheetID },
              (unmarshal payload).2))
          newGoogleSheetClient iter =
        ingestionTask K s kafkaConsumer kafkaTopics unmarshal newGoogleSheetClient iter) := by
  refine ⟨?_, ?_, ?_⟩
  · intro hm
    unfold marshals at hm
    cases hj : jsonMarshal q with
    | error e => simp [hj] at hm
    | ok bytes =>
      rw [WriteToSheet_of_marshal svc iter spreadSheetID q bytes hv hj]
      exact ⟨_, appendRowData_calls svc spreadSheetID "Sheet1" _⟩
  · intro c hc
    cases hj : jsonMarshal q with
    | error e =>
      rw [WriteToSheet_of_marshal_error svc iter spreadSheetID q e hv hj] at hc
      simp at hc
    | ok bytes =>
      rw [WriteToSheet_of_marshal svc iter spreadSheetID q bytes hv hj,
        appendRowData_calls] at hc
      simp only [List.mem_singleton, Call.valuesAppend.injEq] at hc
      subst hc
      exact ⟨rfl, rfl⟩
  · intro σ K s kafkaConsumer kafkaTopics unmarshal newGoogleSheetClient other
    rfl

/-- Witness for C18: the sample record written to the spreadsheet `S1`. -/
theorem WriteToSheet_targets_Sheet1_witness :
    Validate sampleRecord = none ∧
    ∃ c : AppendCall,
      (WriteToSheet okService MapIter.forward "S1" sampleRecord).calls = [.valuesAppend c] ∧
        c.range = "Sheet1" ∧ c.spreadsheetId = "S1" := by
  have h := WriteToSheet_targets_Sheet1 okService MapIter.forward "S1" sampleRecord
    (by decide)
  obtain ⟨c, hc⟩ := h.1 (by decide)
  exact ⟨by decide, c, hc, h.2.1 c (by rw [hc]; exact List.mem_singleton.mpr rfl)⟩

end SheetsConnector
